import Mathlib

/-!
# SigDigger inspector: capture pipeline of `InspectorUI`

A shallow embedding of `src/Inspector/InspectorUI.cpp` (the feed dispatcher and the
capture-session handlers) and of the writer in `src/Misc/FileDataSaver.cpp`.

Conventions of the embedding:

* A `SUFLOAT` is a finite number, negative zero, an infinity or NaN. Finite numbers are exact
  reals (rounding and overflow are not represented); signed zeros, infinities and NaN follow
  IEEE 754. A `SUCOMPLEX` is a pair of `SUFLOAT`s, multiplied as C99 Annex G.5.1 lays down;
  `SU_C_ARG` is `atan2f(im, re)` with the special cases of C99 F.9.1.4, and `PI` is the real
  number π.
* C++ objects reached through pointers are values held in an `Option` (`none` is `nullptr`);
  every `new` takes a fresh object identity from a counter kept in the state.
* A member call through a null pointer is a fault: the operation returns `none`.
* What the operating system, libsuscan and the estimator answer is read from an `Env`.
-/

namespace SigDigger

/-! ## Data model -/

/-- A `SUFLOAT` value: a finite number, idealised as an exact real (`num 0` is positive
zero), negative zero, an infinity, or NaN. Rounding and overflow are not represented. -/
inductive SUFLOAT where
  | num (x : ℝ)
  | negZero
  | posInf
  | negInf
  | nan

namespace SUFLOAT

/-- The test `isnan`. -/
def isNaN : SUFLOAT → Prop
  | nan => True
  | _ => False

/-- The test `isinf`. -/
def isInf : SUFLOAT → Prop
  | posInf => True
  | negInf => True
  | _ => False

/-- Neither an infinity nor NaN. -/
def isFinite : SUFLOAT → Prop
  | num _ => True
  | negZero => True
  | _ => False

/-- The value compares equal to zero. -/
def isZero : SUFLOAT → Prop
  | num x => x = 0
  | negZero => True
  | _ => False

/-- The sign bit (`signbit`); taken clear for NaN. -/
def signBit : SUFLOAT → Prop
  | num x => x < 0
  | negZero => True
  | negInf => True
  | _ => False

/-- The real number a finite value stands for (0 for the others). -/
def toReal : SUFLOAT → ℝ
  | num x => x
  | _ => 0

/-- A zero with the given sign bit. -/
noncomputable def zero (neg : Prop) : SUFLOAT :=
  open Classical in if neg then negZero else num 0

/-- An infinity with the given sign bit. -/
noncomputable def inf (neg : Prop) : SUFLOAT :=
  open Classical in if neg then negInf else posInf

/-- Unary minus. -/
noncomputable def neg : SUFLOAT → SUFLOAT
  | num x => open Classical in if x = 0 then negZero else num (-x)
  | negZero => num 0
  | posInf => negInf
  | negInf => posInf
  | nan => nan

/-- IEEE multiplication, exact on finite operands. -/
noncomputable def mul (a b : SUFLOAT) : SUFLOAT :=
  open Classical in
  if a.isNaN ∨ b.isNaN then nan
  else if a.isInf ∨ b.isInf then
    if a.isZero ∨ b.isZero then nan else inf (Xor' a.signBit b.signBit)
  else if a.toReal * b.toReal = 0 then zero (Xor' a.signBit b.signBit)
  else num (a.toReal * b.toReal)

/-- IEEE addition (round to nearest), exact on finite operands. -/
noncomputable def add (a b : SUFLOAT) : SUFLOAT :=
  open Classical in
  if a.isNaN ∨ b.isNaN then nan
  else if a.isInf ∧ b.isInf then (if a.signBit ↔ b.signBit then a else nan)
  else if a.isInf then a
  else if b.isInf then b
  else if a.toReal + b.toReal = 0 then zero (a.signBit ∧ b.signBit)
  else num (a.toReal + b.toReal)

/-- IEEE subtraction. -/
noncomputable def sub (a b : SUFLOAT) : SUFLOAT := add a (neg b)

/-- IEEE division, exact on finite operands. -/
noncomputable def div (a b : SUFLOAT) : SUFLOAT :=
  open Classical in
  if a.isNaN ∨ b.isNaN then nan
  else if a.isInf then (if b.isInf then nan else inf (Xor' a.signBit b.signBit))
  else if b.isInf then zero (Xor' a.signBit b.signBit)
  else if b.isZero then (if a.isZero then nan else inf (Xor' a.signBit b.signBit))
  else if a.toReal / b.toReal = 0 then zero (Xor' a.signBit b.signBit)
  else num (a.toReal / b.toReal)

/-- The value `copysign(isinf(c) ? 1 : 0, c)` of the C99 multiplication recovery. -/
noncomputable def box (c : SUFLOAT) : SUFLOAT :=
  open Classical in
  if c.isInf then (if c.signBit then num (-1) else num 1) else zero c.signBit

/-- The step `if (isnan(c)) c = copysign(0, c)` of the C99 multiplication recovery. -/
noncomputable def unNaN (c : SUFLOAT) : SUFLOAT :=
  open Classical in if c.isNaN then num 0 else c

/-- The function `atan2f(y, x)` with its IEEE special cases (C99 F.9.1.4); on finite operands
with `y` not zero it is the exact principal argument of `x + iy`. -/
noncomputable def atan2 (y x : SUFLOAT) : SUFLOAT :=
  open Classical in
  if y.isNaN ∨ x.isNaN then nan
  else if y.isInf then
    if x.isInf then
      (if x.signBit then (if y.signBit then num (-(3 * Real.pi / 4)) else num (3 * Real.pi / 4))
       else (if y.signBit then num (-(Real.pi / 4)) else num (Real.pi / 4)))
    else (if y.signBit then num (-(Real.pi / 2)) else num (Real.pi / 2))
  else if x.isInf then
    (if x.signBit then (if y.signBit then num (-Real.pi) else num Real.pi)
     else zero y.signBit)
  else if y.isZero then
    (if x.signBit then (if y.signBit then num (-Real.pi) else num Real.pi)
     else zero y.signBit)
  else num (Complex.arg ⟨x.toReal, y.toReal⟩)

end SUFLOAT

/-- A complex baseband sample: a pair of `SUFLOAT`s. -/
structure SUCOMPLEX where
  re : SUFLOAT
  im : SUFLOAT

/-- Numerals denote real samples. -/
instance (n : Nat) : OfNat SUCOMPLEX n := ⟨⟨SUFLOAT.num n, SUFLOAT.num 0⟩⟩

/-- The imaginary unit `I` of `<complex.h>`. -/
def I : SUCOMPLEX := ⟨SUFLOAT.num 0, SUFLOAT.num 1⟩

/-- The constant `PI` of sigutils. -/
noncomputable abbrev PI : ℝ := Real.pi

/-- The conversion of a real scalar to a complex value. -/
def SUCOMPLEX.ofFloat (v : SUFLOAT) : SUCOMPLEX := ⟨v, SUFLOAT.num 0⟩

/-- The comparison `z != 0` of a complex value. -/
def SUCOMPLEX.neZero (z : SUCOMPLEX) : Prop := ¬ (z.re.isZero ∧ z.im.isZero)

/-- Both components are finite. -/
def SUCOMPLEX.isFinite (z : SUCOMPLEX) : Prop := z.re.isFinite ∧ z.im.isFinite

/-- The exact complex number a finite sample stands for. -/
def SUCOMPLEX.toComplex (z : SUCOMPLEX) : ℂ := ⟨z.re.toReal, z.im.toReal⟩

/-- Complex multiplication as C99 Annex G.5.1 specifies it: the four products, and the
recovery of infinities when both parts come out NaN. Products of finite operands are finite
here, so the recovery from overflow never applies. -/
noncomputable def SUCOMPLEX.mul (z w : SUCOMPLEX) : SUCOMPLEX :=
  open Classical in
  let x := SUFLOAT.sub (SUFLOAT.mul z.re w.re) (SUFLOAT.mul z.im w.im)
  let y := SUFLOAT.add (SUFLOAT.mul z.re w.im) (SUFLOAT.mul z.im w.re)
  if x.isNaN ∧ y.isNaN then
    let zInf : Prop := z.re.isInf ∨ z.im.isInf
    let a1 := if zInf then z.re.box else z.re
    let b1 := if zInf then z.im.box else z.im
    let c1 := if zInf then w.re.unNaN else w.re
    let d1 := if zInf then w.im.unNaN else w.im
    let wInf : Prop := c1.isInf ∨ d1.isInf
    let c2 := if wInf then c1.box else c1
    let d2 := if wInf then d1.box else d1
    let a2 := if wInf then a1.unNaN else a1
    let b2 := if wInf then b1.unNaN else b1
    if zInf ∨ wInf then
      ⟨SUFLOAT.mul SUFLOAT.posInf (SUFLOAT.sub (SUFLOAT.mul a2 c2) (SUFLOAT.mul b2 d2)),
       SUFLOAT.mul SUFLOAT.posInf (SUFLOAT.add (SUFLOAT.mul a2 d2) (SUFLOAT.mul b2 c2))⟩
    else ⟨x, y⟩
  else ⟨x, y⟩

/-- The macro `SU_C_ARG`: the phase angle of a sample (`cargf`). -/
noncomputable def SU_C_ARG (z : SUCOMPLEX) : SUFLOAT := SUFLOAT.atan2 z.im z.re

/-- A `struct timeval`. -/
structure Timeval where
  tv_sec : Int
  tv_usec : Int
deriving DecidableEq, Repr

/-- The `timersub(a, b, res)` of `<sys/time.h>`: `res = a - b`, with `tv_usec` normalised by
one borrow. -/
def timersub (a b : Timeval) : Timeval :=
  let sec := a.tv_sec - b.tv_sec
  let usec := a.tv_usec - b.tv_usec
  if usec < 0 then { tv_sec := sec - 1, tv_usec := usec + 1000000 }
  else { tv_sec := sec, tv_usec := usec }

/-- Decision modes of the `Decider`. -/
inductive DecisionMode where
  | MODULUS
  | ARGUMENT
deriving DecidableEq, Repr

/-- The fields of the `Decider` that `InspectorUI` configures and reads, and the symbols of
the last batch it decided (what `get()` returns). -/
structure Decider where
  mode : DecisionMode
  minimum : ℝ
  maximum : ℝ
  bps : Nat
  symbols : List Nat

/-- The SNR estimator: its symbol width and how many histories it has ingested. Its numeric
model is not represented; a displayed model is identified by the number of histories the
estimator had ingested when the model was read. -/
structure SNREstimator where
  bps : Nat
  feeds : Nat
deriving DecidableEq, Repr

/-- A typed configuration field, seen through its two accessors. -/
structure FieldValue where
  getFloat : ℚ
  getUint64 : Nat
deriving DecidableEq, Repr

/-- The `Suscan::Config` collaborator: family prefixes and typed field lookup (`none` is the
null pointer returned for an absent key). -/
structure Config where
  hasPrefix : String → Bool
  get : String → Option FieldValue

/-- The writer of `FileDataSaver.cpp`: the wrapped sink handle and the last error text. -/
structure FileDataWriter where
  sink : Option Nat
  lastError : String
deriving DecidableEq, Repr

/-- A file capture session (`FileDataSaver`): object identity, its writer, the sample rate
bound by `setSampleRate`, whether its signals are connected, and the batches handed to
`write` so far, oldest first. -/
structure FileDataSaver where
  objId : Nat
  writer : FileDataWriter
  sampleRate : Option Nat
  connected : Bool
  written : List (List SUCOMPLEX)

/-- A network capture session (`SocketForwarder`). -/
structure SocketForwarder where
  objId : Nat
  host : String
  port : Nat
  frameLen : Nat
  tcp : Bool
  lastError : String
  sampleRate : Option Nat
  connected : Bool
  written : List (List SUCOMPLEX)

/-- The saver panel: record toggle, enabled flag and chosen directory. -/
structure DataSaverUI where
  recordState : Bool
  enabled : Bool
  recordSavePath : String
deriving DecidableEq, Repr

/-- The forwarder panel: forward toggle, preparing indicator, enabled flag and endpoint. -/
structure NetForwarderUI where
  forwardState : Bool
  preparing : Bool
  enabled : Bool
  host : String
  port : Nat
  frameLen : Nat
  tcp : Bool
deriving DecidableEq, Repr

/-- The display widgets of `ui` that the modelled operations touch. A displayed SNR model or
label is `some k` when it was read from the estimator after its `k`-th history. -/
structure Widgets where
  constellationFed : List (List SUCOMPLEX)
  constellationOrderHint : Nat
  histogramFed : List (List SUCOMPLEX)
  histogramSNRModel : Option Nat
  histogramResets : Nat
  histogramDeciderSets : Nat
  snrLabel : Option Nat
  symViewBitsPerSymbol : Nat
  symViewFed : List (List Nat)
  transitionOrderHint : Nat
  transitionFed : List (List Nat)
  sizeRefreshes : Nat

/-- What the surroundings answer during one operation: `access(path, F_OK) != -1`, whether
`suscan_sink_open(path)` succeeds, the text of `strerror(errno)`, the time read by
`gettimeofday`, and the symbol the `Decider` assigns to a sample. -/
structure Env where
  access : String → Bool
  sinkOpen : String → Bool
  strerror : String
  now : Timeval
  decision : Decider → SUCOMPLEX → Nat

/-- The state of an `InspectorUI` object together with the objects it owns: sessions queued
by `deleteLater`, the `suscan_sink_close` calls issued so far, and the dialogs shown. -/
structure InspectorUI where
  config : Config
  decider : Decider
  estimator : SNREstimator
  bps : Nat
  estimating : Bool
  demodulating : Bool
  recording : Bool
  forwarding : Bool
  recordingRate : Nat
  last_estimator_update : Timeval
  buffer : List SUCOMPLEX
  dataSaver : Option FileDataSaver
  socketForwarder : Option SocketForwarder
  sink : Option Nat
  saverUI : DataSaverUI
  netForwarderUI : NetForwarderUI
  ui : Widgets
  nextObj : Nat
  nextSink : Nat
  sinkCloses : List Nat
  saversToDelete : List FileDataSaver
  forwardersToDelete : List SocketForwarder
  dialogs : List String
  configChangedEmitted : Nat

/-! ## Collaborators that are not part of the sources -/

/-- Modelled from the spec: `GenericDataSaver::write` (the asynchronous capture driver is not
among the sources) takes the batch of `size` samples without waiting for its completion; the
batch is appended to the session's record of accepted batches. -/
def FileDataSaver.write (d : FileDataSaver) (batch : List SUCOMPLEX) : FileDataSaver :=
  { d with written := d.written ++ [batch] }

/-- Modelled from the spec: `SocketForwarder::write` (not among the sources), as for the
file session. -/
def SocketForwarder.write (f : SocketForwarder) (batch : List SUCOMPLEX) : SocketForwarder :=
  { f with written := f.written ++ [batch] }

/-- Modelled from the spec: `Decider::feed` followed by `Decider::get` (SuWidgets, not among
the sources) decide exactly one symbol per sample of the batch. -/
def Decider.feed (env : Env) (d : Decider) (data : List SUCOMPLEX) : Decider :=
  { d with symbols := data.map (env.decision d) }

/-! ## `InspectorUI::feed` -/

/-- The estimator block of `feed`: ingest the history, read the clock, and refresh the SNR
model and label when the test on `timersub(&last_estimator_update, &tv, &res)` passes. -/
def feedEstimator (env : Env) (s : InspectorUI) : InspectorUI :=
  if s.estimating then
    let est : SNREstimator := { s.estimator with feeds := s.estimator.feeds + 1 }
    let tv := env.now
    let res := timersub s.last_estimator_update tv
    if res.tv_sec > 0 ∨ res.tv_usec > 100000 then
      { s with
        estimator := est
        ui := { s.ui with histogramSNRModel := some est.feeds, snrLabel := some est.feeds }
        last_estimator_update := tv }
    else
      { s with estimator := est }
  else s

/-- The demodulation block of `feed`. -/
def feedDecider (env : Env) (s : InspectorUI) (data : List SUCOMPLEX) : InspectorUI :=
  if s.demodulating then
    if s.decider.bps > 0 then
      let dec := s.decider.feed env data
      { s with
        decider := dec
        ui := { s.ui with
                symViewFed := s.ui.symViewFed ++ [dec.symbols]
                transitionFed := s.ui.transitionFed ++ [dec.symbols]
                sizeRefreshes := s.ui.sizeRefreshes + 1 } }
    else s
  else s

/-- The statement `if (this->recording) this->dataSaver->write(p, size);`. -/
def writeSaver (s : InspectorUI) (batch : List SUCOMPLEX) : Option InspectorUI :=
  if s.recording then
    match s.dataSaver with
    | none => none
    | some d => some { s with dataSaver := some (d.write batch) }
  else some s

/-- The statement `if (this->forwarding) this->socketForwarder->write(p, size);`. -/
def writeForwarder (s : InspectorUI) (batch : List SUCOMPLEX) : Option InspectorUI :=
  if s.forwarding then
    match s.socketForwarder with
    | none => none
    | some f => some { s with socketForwarder := some (f.write batch) }
  else some s

/-- The scalar `SU_C_ARG(I * data[i]) / PI`, stored into a complex buffer element. -/
noncomputable def argScalar (z : SUCOMPLEX) : SUCOMPLEX :=
  SUCOMPLEX.ofFloat (SUFLOAT.div (SU_C_ARG (SUCOMPLEX.mul I z)) (SUFLOAT.num PI))

/-- The statement `if (buffer.size() < size) buffer.resize(size);` (new elements are
value-initialised). -/
def resizeBuffer (buffer : List SUCOMPLEX) (size : Nat) : List SUCOMPLEX :=
  if buffer.length < size then buffer ++ List.replicate (size - buffer.length) 0 else buffer

/-- The loop `for (i = 0; i < size; ++i) buffer[i] = SU_C_ARG(I * data[i]) / PI;`. -/
noncomputable def fillBuffer (buffer data : List SUCOMPLEX) : List SUCOMPLEX :=
  (List.range data.length).foldl (fun b i => b.set i (argScalar (data.getD i 0))) buffer

/-- The capture block of `feed`. -/
noncomputable def feedCapture (s : InspectorUI) (data : List SUCOMPLEX) : Option InspectorUI :=
  if s.recording ∨ s.forwarding then
    if s.decider.mode = DecisionMode.MODULUS then
      (writeSaver s data).bind (fun t => writeForwarder t data)
    else
      let buf := fillBuffer (resizeBuffer s.buffer data.length) data
      let t : InspectorUI := { s with buffer := buf }
      (writeSaver t (buf.take data.length)).bind
        (fun u => writeForwarder u (buf.take data.length))
  else some s

/-- The first two statements of `feed`: the batch goes to the constellation and to the
histogram. -/
def feedDisplay (s : InspectorUI) (data : List SUCOMPLEX) : InspectorUI :=
  { s with ui := { s.ui with
                   constellationFed := s.ui.constellationFed ++ [data]
                   histogramFed := s.ui.histogramFed ++ [data] } }

/-- The method `InspectorUI::feed(data, size)`, the batch being the list `data` of length `size`. -/
noncomputable def feed (env : Env) (s : InspectorUI) (data : List SUCOMPLEX) :
    Option InspectorUI :=
  feedCapture (feedDecider env (feedEstimator env (feedDisplay s data)) data) data

/-! ## Configuration accessors -/

/-- The conversion `static_cast<unsigned int>(float)`: truncation toward zero. Values outside
the range of `unsigned int` (undefined in C++) are taken to 0 when negative and reduced
modulo `2^32` otherwise. -/
def castFloat (q : ℚ) : Nat := (Int.toNat (Int.floor q)) % 2 ^ 32

/-- The conversion `static_cast<unsigned int>(uint64_t)`. -/
def castUint64 (n : Nat) : Nat := n % 2 ^ 32

/-- The method `InspectorUI::getBaudRate`. -/
def getBaudRate (s : InspectorUI) : Nat :=
  match s.config.get "clock.baud" with
  | some val => castFloat val.getFloat
  | none => 1

/-- The method `InspectorUI::getClassName`. -/
def getClassName (s : InspectorUI) : String :=
  if s.config.hasPrefix "ask" then "AM"
  else if s.config.hasPrefix "psk" then "PM"
  else if s.config.hasPrefix "fsk" then "FM"
  else "UNKNOWN"

/-- The method `InspectorUI::getBps`. -/
def getBps (s : InspectorUI) : Nat :=
  let bps : Nat :=
    match s.config.get "afc.bits-per-symbol" with
    | some val => castUint64 val.getUint64
    | none =>
      match s.config.get "fsk.bits-per-symbol" with
      | some val => castUint64 val.getUint64
      | none =>
        match s.config.get "ask.bits-per-symbol" with
        | some val => castUint64 val.getUint64
        | none => 0
  if bps = 0 then 1 else bps

/-- The method `InspectorUI::setBps`. -/
def setBps (bps : Nat) (s : InspectorUI) : InspectorUI :=
  if s.bps ≠ bps then
    { s with
      decider := { s.decider with bps := bps }
      estimator := { s.estimator with bps := bps }
      ui := { s.ui with
              symViewBitsPerSymbol := bps
              constellationOrderHint := bps
              transitionOrderHint := bps
              histogramDeciderSets := s.ui.histogramDeciderSets + 1 }
      bps := bps }
  else s

/-! ## Capture file name -/

/-- The output of `std::setw(4) << std::setfill('0') << i`. -/
def pad4 (i : Nat) : String :=
  String.mk (List.replicate (4 - (toString i).length) '0') ++ toString i

/-- Modelled from the spec: the number that a string of decimal digits, such as the suffix
`<NNNN>` of a capture file name, denotes. -/
def decimalValue (str : String) : Nat :=
  str.data.foldl (fun acc c => acc * 10 + (c.toNat - 48)) 0

/-- The path built by one iteration of the loop of `captureFileName` for suffix `i`. -/
def capturePath (s : InspectorUI) (i : Nat) : String :=
  s.saverUI.recordSavePath ++ "/" ++
    ("channel-capture-" ++ getClassName s ++ "-" ++ toString (getBaudRate s) ++ "-baud-" ++
      pad4 i ++ ".raw")

/-- The `do ... while (access(path, F_OK) != -1)` loop of `captureFileName`, entered with
counter `i` (an `unsigned int`, incremented before use) and allowed `fuel` iterations. -/
def captureLoop (env : Env) (s : InspectorUI) : Nat → Nat → Option String
  | 0, _ => none
  | fuel + 1, i =>
    let j := (i + 1) % 2 ^ 32
    if env.access (capturePath s j) then captureLoop env s fuel j
    else some (capturePath s j)

/-- The method `InspectorUI::captureFileName`. The counter takes `2^32` values, so `2^32` iterations
without an unused path mean that the loop never ends: the result is then `none`. -/
def captureFileName (env : Env) (s : InspectorUI) : Option String :=
  captureLoop env s (2 ^ 32) 0

/-! ## Installing and removing capture sessions -/

/-- The method `InspectorUI::installNetForwarder`. -/
def installNetForwarder (s : InspectorUI) : Bool × InspectorUI :=
  match s.socketForwarder with
  | none =>
    let rate := getBaudRate s
    let f : SocketForwarder :=
      { objId := s.nextObj
        host := s.netForwarderUI.host
        port := s.netForwarderUI.port
        frameLen := s.netForwarderUI.frameLen
        tcp := s.netForwarderUI.tcp
        lastError := ""
        sampleRate := some rate
        connected := true
        written := [] }
    (true, { s with socketForwarder := some f, recordingRate := rate, nextObj := s.nextObj + 1 })
  | some _ => (false, s)

/-- The method `InspectorUI::uninstallNetForwarder`. -/
def uninstallNetForwarder (s : InspectorUI) : InspectorUI :=
  match s.socketForwarder with
  | some f => { s with socketForwarder := none, forwardersToDelete := s.forwardersToDelete ++ [f] }
  | none => s

/-- The method `InspectorUI::installDataSaver`. The result is `none` when `captureFileName` does not
return. The error text uses the inner, empty `path` that shadows the file name. -/
def installDataSaver (env : Env) (s : InspectorUI) : Option (Bool × InspectorUI) :=
  match s.dataSaver with
  | none =>
    match captureFileName env s with
    | none => none
    | some path =>
      if env.sinkOpen path then
        let rate := getBaudRate s
        let d : FileDataSaver :=
          { objId := s.nextObj
            writer := { sink := some s.nextSink, lastError := "" }
            sampleRate := some rate
            connected := true
            written := [] }
        some (true,
          { s with
            sink := some s.nextSink
            nextSink := s.nextSink + 1
            dataSaver := some d
            recordingRate := rate
            nextObj := s.nextObj + 1 })
      else
        some (false,
          { s with
            sink := none
            dialogs := s.dialogs ++
              ["Failed to open capture file <pre>" ++ "" ++ "</pre>: " ++ env.strerror] })
  | some _ => some (false, s)

/-- The method `InspectorUI::uninstallDataSaver`. -/
def uninstallDataSaver (s : InspectorUI) : InspectorUI :=
  let s1 : InspectorUI :=
    match s.dataSaver with
    | some d => { s with dataSaver := none, saversToDelete := s.saversToDelete ++ [d] }
    | none => s
  match s1.sink with
  | some h => { s1 with sinkCloses := s1.sinkCloses ++ [h], sink := none }
  | none => s1

/-! ## Slots -/

/-- The method `InspectorUI::onToggleRecord`. -/
def onToggleRecord (env : Env) (s : InspectorUI) : Option InspectorUI :=
  let r : Option (Bool × InspectorUI) :=
    if s.saverUI.recordState then installDataSaver env s
    else some (false, uninstallDataSaver s)
  r.map (fun p =>
    { p.2 with recording := p.1, saverUI := { p.2.saverUI with recordState := p.1 } })

/-- Modelled from the spec: `GenericDataSaver::getLastError` (not among the sources) is the
writer's `lastError()`. -/
def FileDataSaver.getLastError (d : FileDataSaver) : String := d.writer.lastError

/-- The method `InspectorUI::onSaveError`. -/
def onSaveError (s : InspectorUI) : InspectorUI :=
  match s.dataSaver with
  | some d =>
    let error := d.getLastError
    let s1 := uninstallDataSaver { s with recording := false }
    { s1 with
      dialogs := s1.dialogs ++ ["Capture interrupted due to errors. " ++ error]
      saverUI := { s1.saverUI with recordState := false } }
  | none => s

/-- The method `InspectorUI::onSaveSwamped`. -/
def onSaveSwamped (s : InspectorUI) : InspectorUI :=
  match s.dataSaver with
  | some _ =>
    let s1 := uninstallDataSaver { s with recording := false }
    { s1 with
      dialogs := s1.dialogs ++ ["Capture thread swamped. Maybe your storage device is too slow"]
      saverUI := { s1.saverUI with recordState := false } }
  | none => s

/-- The method `InspectorUI::onToggleNetForward`. -/
def onToggleNetForward (s : InspectorUI) : InspectorUI :=
  let p : Bool × InspectorUI :=
    if s.netForwarderUI.forwardState then installNetForwarder s
    else (false, uninstallNetForwarder { s with forwarding := false })
  { p.2 with
    forwarding := p.1
    netForwarderUI := { p.2.netForwarderUI with preparing := p.1, forwardState := p.1 } }

/-- The method `InspectorUI::onNetError`. -/
def onNetError (s : InspectorUI) : InspectorUI :=
  match s.socketForwarder with
  | some f =>
    let error := f.lastError
    let s1 := uninstallNetForwarder { s with forwarding := false }
    { s1 with
      dialogs := s1.dialogs ++ ["Network forwarding was interrupted. " ++ error]
      netForwarderUI := { s1.netForwarderUI with forwardState := false } }
  | none => s

/-- The method `InspectorUI::onNetSwamped`. -/
def onNetSwamped (s : InspectorUI) : InspectorUI :=
  match s.socketForwarder with
  | some _ =>
    let s1 := uninstallNetForwarder { s with forwarding := false }
    { s1 with
      dialogs := s1.dialogs ++
        ["Capture thread swamped. Maybe your network interface is too slow."]
      netForwarderUI := { s1.netForwarderUI with forwardState := false } }
  | none => s

/-- The first block of `onInspectorControlChanged`: the file session on a rate change. -/
def controlChangedRecord (env : Env) (newRate oldRate : Nat) (s : InspectorUI) :
    Option InspectorUI :=
  if s.recording ∧ newRate ≠ oldRate then
    let s1 : InspectorUI := { s with recording := false }
    let r : Option InspectorUI :=
      if newRate = 0 then some (uninstallDataSaver s1)
      else if newRate ≠ s1.recordingRate then
        (installDataSaver env (uninstallDataSaver s1)).map
          (fun p => { p.2 with recording := p.1 })
      else some s1
    r.map (fun t => { t with saverUI := { t.saverUI with recordState := t.recording } })
  else some s

/-- The second block of `onInspectorControlChanged`: the network session on a rate change.
It ends with `saverUI->setRecordState(this->recording)`, as the first block does. -/
def controlChangedForward (newRate oldRate : Nat) (s : InspectorUI) : InspectorUI :=
  if s.forwarding ∧ newRate ≠ oldRate then
    let s1 : InspectorUI := { s with forwarding := false }
    let t : InspectorUI :=
      if newRate = 0 then uninstallNetForwarder s1
      else if newRate ≠ s1.recordingRate then
        let p := installNetForwarder (uninstallNetForwarder s1)
        { p.2 with forwarding := p.1 }
      else s1
    { t with saverUI := { t.saverUI with recordState := t.recording } }
  else s

/-- The method `InspectorUI::onInspectorControlChanged`. -/
def onInspectorControlChanged (env : Env) (s : InspectorUI) : Option InspectorUI :=
  let newRate := getBaudRate s
  let oldRate := s.recordingRate
  (controlChangedRecord env newRate oldRate s).map (fun s1 =>
    let s2 := controlChangedForward newRate oldRate s1
    let s3 : InspectorUI :=
      { s2 with
        saverUI := { s2.saverUI with enabled := decide (newRate ≠ 0) }
        netForwarderUI := { s2.netForwarderUI with enabled := decide (newRate ≠ 0) } }
    let s4 := setBps (getBps s3) s3
    { s4 with
      ui := { s4.ui with histogramResets := s4.ui.histogramResets + 1 }
      configChangedEmitted := s4.configChangedEmitted + 1 })

/-! ## Well-formed states and sample states -/

/-- The session named by each raised flag is present: what the two guarded `write` calls of
`feed` dereference. -/
def sessionsPresent (s : InspectorUI) : Prop :=
  (s.recording = true → s.dataSaver.isSome = true) ∧
    (s.forwarding = true → s.socketForwarder.isSome = true)

/-- An `fsk` configuration whose `clock.baud` field is `baud`. -/
def sampleConfig (baud : ℚ) : Config :=
  { hasPrefix := fun p => p == "fsk"
    get := fun k => if k == "clock.baud" then some { getFloat := baud, getUint64 := 0 } else none }

/-- Widgets before any batch. -/
def sampleWidgets : Widgets :=
  { constellationFed := []
    constellationOrderHint := 1
    histogramFed := []
    histogramSNRModel := none
    histogramResets := 0
    histogramDeciderSets := 0
    snrLabel := none
    symViewBitsPerSymbol := 1
    symViewFed := []
    transitionOrderHint := 1
    transitionFed := []
    sizeRefreshes := 0 }

/-- A file session with identity 0 on sink handle 0, bound to 9600 baud. -/
def sampleSaver : FileDataSaver :=
  { objId := 0
    writer := { sink := some 0, lastError := "" }
    sampleRate := some 9600
    connected := true
    written := [] }

/-- A network session with identity 1, bound to 9600 baud. -/
def sampleForwarder : SocketForwarder :=
  { objId := 1
    host := "localhost"
    port := 5555
    frameLen := 1024
    tcp := true
    lastError := ""
    sampleRate := some 9600
    connected := true
    written := [] }

/-- An idle inspector in the given decision mode at the given baud rate: nothing armed, no
session, empty scratch buffer. -/
def sampleState (mode : DecisionMode) (baud : ℚ) : InspectorUI :=
  { config := sampleConfig baud
    decider := { mode := mode, minimum := 0, maximum := 1, bps := 1, symbols := [] }
    estimator := { bps := 1, feeds := 0 }
    bps := 1
    estimating := false
    demodulating := false
    recording := false
    forwarding := false
    recordingRate := 9600
    last_estimator_update := { tv_sec := 10, tv_usec := 0 }
    buffer := []
    dataSaver := none
    socketForwarder := none
    sink := none
    saverUI := { recordState := false, enabled := true, recordSavePath := "/tmp" }
    netForwarderUI :=
      { forwardState := false, preparing := false, enabled := true,
        host := "localhost", port := 5555, frameLen := 1024, tcp := true }
    ui := sampleWidgets
    nextObj := 2
    nextSink := 1
    sinkCloses := []
    saversToDelete := []
    forwardersToDelete := []
    dialogs := []
    configChangedEmitted := 0 }

/-- The inspector of `sampleState` with both sessions installed and both flags raised. -/
def armedState (mode : DecisionMode) (baud : ℚ) : InspectorUI :=
  { sampleState mode baud with
    recording := true
    forwarding := true
    dataSaver := some sampleSaver
    socketForwarder := some sampleForwarder
    sink := some 0
    saverUI := { recordState := true, enabled := true, recordSavePath := "/tmp" }
    netForwarderUI :=
      { forwardState := true, preparing := false, enabled := true,
        host := "localhost", port := 5555, frameLen := 1024, tcp := true } }

/-- Surroundings in which no capture file exists yet, every sink opens, and the clock reads
`now`. -/
def sampleEnv (now : Timeval) : Env :=
  { access := fun _ => false
    sinkOpen := fun _ => true
    strerror := "No such file or directory"
    now := now
    decision := fun _ _ => 0 }

/-- The bits-per-symbol of the decider, of the estimator and of the symbol view, and the
order hints of the constellation and transition views, all equal the cached `bps`. -/
def bpsInSync (s : InspectorUI) : Prop :=
  s.decider.bps = s.bps ∧ s.estimator.bps = s.bps ∧ s.ui.symViewBitsPerSymbol = s.bps ∧
    s.ui.constellationOrderHint = s.bps ∧ s.ui.transitionOrderHint = s.bps

/-- The sample inspector with the record and forward toggles pressed and nothing installed. -/
def togglesOnState (mode : DecisionMode) (baud : ℚ) : InspectorUI :=
  { sampleState mode baud with
    saverUI := { recordState := true, enabled := true, recordSavePath := "/tmp" }
    netForwarderUI :=
      { forwardState := true, preparing := false, enabled := true,
        host := "localhost", port := 5555, frameLen := 1024, tcp := true } }

/-! ## The writer of `FileDataSaver.cpp` -/

/-- The constructor `FileDataWriter::FileDataWriter(sink)`; `lastError` starts empty. -/
def FileDataWriter.new (sink : Option Nat) : FileDataWriter :=
  { sink := sink, lastError := "" }

/-- The method `FileDataWriter::getError`. -/
def FileDataWriter.getError (w : FileDataWriter) : String := w.lastError

/-- The method `FileDataWriter::prepare`. -/
def FileDataWriter.prepare (_w : FileDataWriter) : Bool := true

/-- The method `FileDataWriter::canWrite`. -/
def FileDataWriter.canWrite (w : FileDataWriter) : Bool := w.sink.isSome

/-- The method `FileDataWriter::write`. `sinkWrite h data` is what `suscan_sink_write`
returns for handle `h`, and `strerror` the text of `strerror(errno)` after that call. -/
def FileDataWriter.write (w : FileDataWriter) (sinkWrite : Nat → List SUCOMPLEX → Int)
    (strerror : String) (data : List SUCOMPLEX) : Int × FileDataWriter :=
  match w.sink with
  | none => (0, w)
  | some h =>
    let result := sinkWrite h data
    if result < 1 then (result, { w with lastError := "write() failed: " ++ strerror })
    else (result, w)

/-- The method `FileDataWriter::close`, threaded through the record `closes` of the
`suscan_sink_close` calls issued so far: the result is the returned flag, the writer
afterwards and the extended record. -/
def FileDataWriter.close (w : FileDataWriter) (closes : List Nat) :
    Bool × FileDataWriter × List Nat :=
  match w.sink with
  | some h => (true, { w with sink := none }, closes ++ [h])
  | none => (true, w, closes)

/-! ## Construction and reachable states -/

/-- The decider settings chosen by the constructor from the demodulator family. -/
noncomputable def constructDecider (config : Config) (d : Decider) : Decider :=
  if config.hasPrefix "ask" then
    { d with mode := DecisionMode.MODULUS, minimum := 0, maximum := 1 }
  else if config.hasPrefix "afc" then
    { d with mode := DecisionMode.ARGUMENT, minimum := -PI, maximum := PI }
  else if config.hasPrefix "fsk" then
    { d with mode := DecisionMode.ARGUMENT, minimum := -PI, maximum := PI }
  else d

/-- The method `InspectorUI::initUi`, on the modelled widgets: the histogram is given the
decider and reset, then `setBps(1)`. -/
def initUi (s : InspectorUI) : InspectorUI :=
  setBps 1
    { s with ui := { s.ui with
                     histogramDeciderSets := s.ui.histogramDeciderSets + 1
                     histogramResets := s.ui.histogramResets + 1 } }

/-- The method `InspectorUI::refreshUi`, on the modelled widgets; `attached` is
`this->state == ATTACHED`. -/
def refreshUi (attached : Bool) (s : InspectorUI) : InspectorUI :=
  { s with
    saverUI := { s.saverUI with enabled := attached && decide (s.recordingRate ≠ 0) }
    netForwarderUI :=
      { s.netForwarderUI with enabled := attached && decide (s.recordingRate ≠ 0) } }

/-- The constructor `InspectorUI::InspectorUI(owner, config)`. `members` is the object as
the member initialisers of the class declaration and the freshly created panels leave it,
and `attached` is whether its initial `state` is `ATTACHED`. Signal wiring and the waterfall
refresh do not touch the modelled state. -/
noncomputable def construct (config : Config) (attached : Bool) (members : InspectorUI) :
    InspectorUI :=
  let s1 : InspectorUI := { members with config := config }
  let s2 : InspectorUI := { s1 with decider := constructDecider config s1.decider }
  refreshUi attached (initUi s2)

/-- Modelled from the spec: the member initialisers of `InspectorUI.h` (not among the
sources). A capture session is created only when recording or forwarding is armed, so a new
object has no session, no sink and no raised flag. -/
def freshMembers (m : InspectorUI) : Prop :=
  m.recording = false ∧ m.forwarding = false ∧ m.dataSaver = none ∧
    m.socketForwarder = none ∧ m.sink = none

/-- What can happen to a constructed inspector: a batch is fed, `setBps` is called, one of
the slots runs, the user flips the record or the forward toggle, or the controls edit the
configuration. -/
inductive Action where
  | feed (data : List SUCOMPLEX)
  | setBps (bps : Nat)
  | inspectorControlChanged
  | toggleRecord
  | toggleNetForward
  | saveError
  | saveSwamped
  | netError
  | netSwamped
  | userRecordToggle (pressed : Bool)
  | userForwardToggle (pressed : Bool)
  | configEdit (config : Config)

/-- One action on the inspector; `none` when the action does not return. -/
noncomputable def step (env : Env) (a : Action) (s : InspectorUI) : Option InspectorUI :=
  match a with
  | Action.feed data => feed env s data
  | Action.setBps b => some (setBps b s)
  | Action.inspectorControlChanged => onInspectorControlChanged env s
  | Action.toggleRecord => onToggleRecord env s
  | Action.toggleNetForward => some (onToggleNetForward s)
  | Action.saveError => some (onSaveError s)
  | Action.saveSwamped => some (onSaveSwamped s)
  | Action.netError => some (onNetError s)
  | Action.netSwamped => some (onNetSwamped s)
  | Action.userRecordToggle pressed =>
    some { s with saverUI := { s.saverUI with recordState := pressed } }
  | Action.userForwardToggle pressed =>
    some { s with netForwarderUI := { s.netForwarderUI with forwardState := pressed } }
  | Action.configEdit config => some { s with config := config }

/-- The states reachable from `s0` by finitely many actions, each in its own surroundings. -/
inductive Reachable (s0 : InspectorUI) : InspectorUI → Prop where
  | start : Reachable s0 s0
  | next (env : Env) (a : Action) (s t : InspectorUI) :
      Reachable s0 s → step env a s = some t → Reachable s0 t

/-- A configuration holding the three bits-per-symbol keys as given (`none`: key absent). -/
def bpsConfig (afc fsk ask : Option Nat) : Config :=
  { hasPrefix := fun p => p == "afc"
    get := fun k =>
      if k == "afc.bits-per-symbol" then afc.map (fun n => { getFloat := 0, getUint64 := n })
      else if k == "fsk.bits-per-symbol" then
        fsk.map (fun n => { getFloat := 0, getUint64 := n })
      else if k == "ask.bits-per-symbol" then
        ask.map (fun n => { getFloat := 0, getUint64 := n })
      else none }

/-- Surroundings in which the capture files with suffixes 1 and 2 of the sample inspector at
9600 baud already exist. -/
def twoFilesEnv : Env :=
  { sampleEnv ⟨10, 0⟩ with
    access := fun p =>
      p == "/tmp/channel-capture-FM-9600-baud-0001.raw" ||
        p == "/tmp/channel-capture-FM-9600-baud-0002.raw" }

/-- The inspector constructed for the sample fsk configuration at 9600 baud. -/
noncomputable def constructedSample : InspectorUI :=
  construct (sampleConfig 9600) true (sampleState DecisionMode.MODULUS 9600)

/-- The constructed sample inspector after the user presses the forward toggle and
`onToggleNetForward` runs. -/
noncomputable def forwardArmedSample : InspectorUI :=
  onToggleNetForward
    { constructedSample with
      netForwarderUI := { constructedSample.netForwarderUI with forwardState := true } }

/-! ## Destruction of capture sessions -/

/-- The destructor `FileDataWriter::~FileDataWriter`: it calls `close()`. The result is the
record of `suscan_sink_close` calls afterwards. -/
def FileDataWriter.destroy (w : FileDataWriter) (closes : List Nat) : List Nat :=
  (w.close closes).2.2

/-- The destructor `FileDataSaver::~FileDataSaver`: it deletes the writer built by the
constructor. -/
def FileDataSaver.destroy (d : FileDataSaver) (closes : List Nat) : List Nat :=
  d.writer.destroy closes

/-- The event loop carries out the deletions queued by `deleteLater`, oldest first. -/
def processDeferredDeletes (s : InspectorUI) : InspectorUI :=
  { s with
    sinkCloses := s.saversToDelete.foldl (fun closes d => d.destroy closes) s.sinkCloses
    saversToDelete := []
    forwardersToDelete := [] }

/-- The destructor `InspectorUI::~InspectorUI`: the sessions still installed are deleted at
once; `this->sink` is not closed here. -/
def destroyInspector (s : InspectorUI) : InspectorUI :=
  let closes : List Nat :=
    match s.dataSaver with
    | some d => d.destroy s.sinkCloses
    | none => s.sinkCloses
  { s with sinkCloses := closes, dataSaver := none, socketForwarder := none }

/-- The user releases the record toggle. -/
def releaseRecordToggle (s : InspectorUI) : InspectorUI :=
  { s with saverUI := { s.saverUI with recordState := false } }

/-! ## Lemmas on the scratch buffer -/

theorem foldl_set_length {α : Type} (f : Nat → α) (n : Nat) (b : List α) :
    ((List.range n).foldl (fun b i => b.set i (f i)) b).length = b.length := by
  induction n with
  | zero => simp
  | succ n ih => simp [List.range_succ, List.foldl_append, ih]

theorem foldl_set_getElem? {α : Type} (f : Nat → α) (n : Nat) (b : List α) (j : Nat) :
    ((List.range n).foldl (fun b i => b.set i (f i)) b)[j]? =
      if j < n ∧ j < b.length then some (f j) else b[j]? := by
  induction n with
  | zero => simp
  | succ n ih =>
    simp only [List.range_succ, List.foldl_append, List.foldl_cons, List.foldl_nil]
    rw [List.getElem?_set, foldl_set_length, ih]
    by_cases hj : n = j
    · subst hj
      by_cases hl : n < b.length
      · simp [hl]
      · have hle : b.length ≤ n := by omega
        simp [hl, List.getElem?_eq_none hle]
    · simp only [hj, if_false]
      by_cases h1 : j < n
      · have : j < n + 1 := by omega
        simp [h1, this]
      · have : ¬ j < n + 1 := by omega
        simp [h1, this]

theorem resizeBuffer_length_ge (buffer : List SUCOMPLEX) (size : Nat) :
    size ≤ (resizeBuffer buffer size).length := by
  unfold resizeBuffer
  split_ifs with h
  · simp; omega
  · omega

/-- After the conversion loop the first `size` elements of the buffer are the converted
samples, in order. -/
theorem fillBuffer_take (buffer data : List SUCOMPLEX) (h : data.length ≤ buffer.length) :
    (fillBuffer buffer data).take data.length = data.map argScalar := by
  apply List.ext_getElem?
  intro j
  unfold fillBuffer
  rw [List.getElem?_take, foldl_set_getElem?]
  by_cases hj : j < data.length
  · have hb : j < buffer.length := by omega
    simp [hj, hb, List.getD_eq_getElem?_getD, List.getElem?_eq_getElem hj]
  · have hle : data.length ≤ j := by omega
    simp [hj, List.getElem?_eq_none, hle]

/-! ## Lemmas on `feed` -/

/-- The estimator block leaves the capture state alone. -/
theorem feedEstimator_frame (env : Env) (s : InspectorUI) :
    (feedEstimator env s).recording = s.recording ∧
    (feedEstimator env s).forwarding = s.forwarding ∧
    (feedEstimator env s).dataSaver = s.dataSaver ∧
    (feedEstimator env s).socketForwarder = s.socketForwarder ∧
    (feedEstimator env s).buffer = s.buffer ∧
    (feedEstimator env s).decider = s.decider := by
  unfold feedEstimator
  dsimp only
  split_ifs <;> exact ⟨rfl, rfl, rfl, rfl, rfl, rfl⟩

/-- The demodulation block leaves the capture state and the decision mode alone. -/
theorem feedDecider_frame (env : Env) (s : InspectorUI) (data : List SUCOMPLEX) :
    (feedDecider env s data).recording = s.recording ∧
    (feedDecider env s data).forwarding = s.forwarding ∧
    (feedDecider env s data).dataSaver = s.dataSaver ∧
    (feedDecider env s data).socketForwarder = s.socketForwarder ∧
    (feedDecider env s data).buffer = s.buffer ∧
    (feedDecider env s data).decider.mode = s.decider.mode := by
  unfold feedDecider
  dsimp only
  split_ifs <;> exact ⟨rfl, rfl, rfl, rfl, rfl, rfl⟩

/-- The stages of `feed` that precede the capture block leave the capture state alone. -/
theorem feedStages_frame (env : Env) (s : InspectorUI) (data : List SUCOMPLEX) :
    (feedDecider env (feedEstimator env (feedDisplay s data)) data).recording = s.recording ∧
    (feedDecider env (feedEstimator env (feedDisplay s data)) data).forwarding = s.forwarding ∧
    (feedDecider env (feedEstimator env (feedDisplay s data)) data).dataSaver = s.dataSaver ∧
    (feedDecider env (feedEstimator env (feedDisplay s data)) data).socketForwarder =
      s.socketForwarder ∧
    (feedDecider env (feedEstimator env (feedDisplay s data)) data).buffer = s.buffer ∧
    (feedDecider env (feedEstimator env (feedDisplay s data)) data).decider.mode =
      s.decider.mode := by
  obtain ⟨d1, d2, d3, d4, d5, d6⟩ :=
    feedDecider_frame env (feedEstimator env (feedDisplay s data)) data
  obtain ⟨e1, e2, e3, e4, e5, e6⟩ := feedEstimator_frame env (feedDisplay s data)
  rw [d1, d2, d3, d4, d5, d6, e1, e2, e3, e4, e5, e6]
  exact ⟨rfl, rfl, rfl, rfl, rfl, rfl⟩

/-- The capture block in MODULUS mode, on a state whose raised flags have their session. -/
theorem feedCapture_modulus (t : InspectorUI) (data : List SUCOMPLEX)
    (hmode : t.decider.mode = DecisionMode.MODULUS) (ht : sessionsPresent t) :
    ∃ u, feedCapture t data = some u ∧
      u.dataSaver =
        (if t.recording = true then t.dataSaver.map (fun d => d.write data) else t.dataSaver) ∧
      u.socketForwarder =
        (if t.forwarding = true then t.socketForwarder.map (fun f => f.write data)
         else t.socketForwarder) ∧
      u.buffer = t.buffer := by
  obtain ⟨h1, h2⟩ := ht
  unfold feedCapture writeSaver writeForwarder
  cases hr : t.recording <;> cases hf : t.forwarding <;>
    cases hd : t.dataSaver <;> cases hsf : t.socketForwarder <;>
    simp_all

/-- The capture block outside MODULUS mode, with at least one flag raised. -/
theorem feedCapture_argument (t : InspectorUI) (data : List SUCOMPLEX)
    (hmode : t.decider.mode ≠ DecisionMode.MODULUS) (ht : sessionsPresent t)
    (hflag : t.recording = true ∨ t.forwarding = true) :
    ∃ u, feedCapture t data = some u ∧
      u.dataSaver =
        (if t.recording = true then t.dataSaver.map (fun d => d.write (data.map argScalar))
         else t.dataSaver) ∧
      u.socketForwarder =
        (if t.forwarding = true then
          t.socketForwarder.map (fun f => f.write (data.map argScalar))
         else t.socketForwarder) ∧
      u.buffer = fillBuffer (resizeBuffer t.buffer data.length) data := by
  obtain ⟨h1, h2⟩ := ht
  have hb := fillBuffer_take (resizeBuffer t.buffer data.length) data
    (resizeBuffer_length_ge t.buffer data.length)
  unfold feedCapture writeSaver writeForwarder
  cases hr : t.recording <;> cases hf : t.forwarding <;>
    cases hd : t.dataSaver <;> cases hsf : t.socketForwarder <;>
    simp_all

/-- A feed in MODULUS mode returns, and each raised flag's session takes the batch as is. -/
theorem feed_modulus (env : Env) (s : InspectorUI) (data : List SUCOMPLEX)
    (hmode : s.decider.mode = DecisionMode.MODULUS) (hs : sessionsPresent s) :
    ∃ u, feed env s data = some u ∧
      u.dataSaver =
        (if s.recording = true then s.dataSaver.map (fun d => d.write data) else s.dataSaver) ∧
      u.socketForwarder =
        (if s.forwarding = true then s.socketForwarder.map (fun f => f.write data)
         else s.socketForwarder) ∧
      u.buffer = s.buffer := by
  obtain ⟨f1, f2, f3, f4, f5, f6⟩ := feedStages_frame env s data
  have ht : sessionsPresent (feedDecider env (feedEstimator env (feedDisplay s data)) data) := by
    unfold sessionsPresent
    rw [f1, f2, f3, f4]
    exact hs
  obtain ⟨u, hu, h1, h2, h3⟩ := feedCapture_modulus _ data (f6.trans hmode) ht
  rw [f1, f3] at h1
  rw [f2, f4] at h2
  rw [f5] at h3
  exact ⟨u, hu, h1, h2, h3⟩

/-- A feed outside MODULUS mode with a raised flag returns, and each raised flag's session
takes the converted batch. -/
theorem feed_argument (env : Env) (s : InspectorUI) (data : List SUCOMPLEX)
    (hmode : s.decider.mode ≠ DecisionMode.MODULUS) (hs : sessionsPresent s)
    (hflag : s.recording = true ∨ s.forwarding = true) :
    ∃ u, feed env s data = some u ∧
      u.dataSaver =
        (if s.recording = true then s.dataSaver.map (fun d => d.write (data.map argScalar))
         else s.dataSaver) ∧
      u.socketForwarder =
        (if s.forwarding = true then
          s.socketForwarder.map (fun f => f.write (data.map argScalar))
         else s.socketForwarder) ∧
      u.buffer = fillBuffer (resizeBuffer s.buffer data.length) data := by
  obtain ⟨f1, f2, f3, f4, f5, f6⟩ := feedStages_frame env s data
  have ht : sessionsPresent (feedDecider env (feedEstimator env (feedDisplay s data)) data) := by
    unfold sessionsPresent
    rw [f1, f2, f3, f4]
    exact hs
  have hm : (feedDecider env (feedEstimator env (feedDisplay s data)) data).decider.mode ≠
      DecisionMode.MODULUS := by
    rw [f6]
    exact hmode
  have hfl : (feedDecider env (feedEstimator env (feedDisplay s data)) data).recording = true ∨
      (feedDecider env (feedEstimator env (feedDisplay s data)) data).forwarding = true := by
    rw [f1, f2]
    exact hflag
  obtain ⟨u, hu, h1, h2, h3⟩ := feedCapture_argument _ data hm ht hfl
  rw [f1, f3] at h1
  rw [f2, f4] at h2
  rw [f5] at h3
  exact ⟨u, hu, h1, h2, h3⟩

/-! ## Lemmas on `SUFLOAT` arithmetic -/

namespace SUFLOAT

theorem mul_finite (a b : SUFLOAT) (ha : a.isFinite) (hb : b.isFinite) :
    (mul a b).isFinite ∧ (mul a b).toReal = a.toReal * b.toReal := by
  cases a <;> cases b <;> simp [isFinite] at ha hb <;>
    simp [mul, isNaN, isInf, toReal, zero] <;> (try split_ifs) <;>
    simp_all [isFinite, toReal]

theorem neg_finite (a : SUFLOAT) (ha : a.isFinite) :
    (neg a).isFinite ∧ (neg a).toReal = -a.toReal := by
  cases a <;> simp [isFinite] at ha <;>
    simp [neg, toReal] <;> (try split_ifs) <;> simp_all [isFinite, toReal]

theorem add_finite (a b : SUFLOAT) (ha : a.isFinite) (hb : b.isFinite) :
    (add a b).isFinite ∧ (add a b).toReal = a.toReal + b.toReal := by
  cases a <;> cases b <;> simp [isFinite] at ha hb <;>
    simp [add, isNaN, isInf, toReal, zero] <;> (try split_ifs) <;>
    simp_all [isFinite, toReal]

theorem sub_finite (a b : SUFLOAT) (ha : a.isFinite) (hb : b.isFinite) :
    (sub a b).isFinite ∧ (sub a b).toReal = a.toReal - b.toReal := by
  obtain ⟨h1, h2⟩ := neg_finite b hb
  obtain ⟨h3, h4⟩ := add_finite a (neg b) ha h1
  exact ⟨h3, by rw [sub, h4, h2]; ring⟩

theorem not_isNaN_of_finite (a : SUFLOAT) (ha : a.isFinite) : ¬ a.isNaN := by
  cases a <;> simp_all [isFinite, isNaN]

/-- On finite operands `atan2f` is finite and between -π and π. -/
theorem atan2_finite (y x : SUFLOAT) (hy : y.isFinite) (hx : x.isFinite) :
    (atan2 y x).isFinite ∧ -Real.pi ≤ (atan2 y x).toReal ∧ (atan2 y x).toReal ≤ Real.pi := by
  have hpi := Real.pi_pos
  have h1 := Complex.neg_pi_lt_arg ⟨x.toReal, y.toReal⟩
  have h2 := Complex.arg_le_pi ⟨x.toReal, y.toReal⟩
  cases y <;> cases x <;> simp [isFinite] at hy hx <;>
    simp [atan2, isNaN, isInf, isZero, signBit, zero] <;> (try split_ifs) <;>
    (try simp_all [isFinite, toReal]) <;>
    (try (first | linarith | (constructor <;> linarith)))

/-- Division of a finite value by π. -/
theorem div_pi_finite (a : SUFLOAT) (ha : a.isFinite) :
    (div a (num Real.pi)).isFinite ∧ (div a (num Real.pi)).toReal = a.toReal / Real.pi := by
  have hpi := Real.pi_ne_zero
  cases a <;> simp [isFinite] at ha <;>
    simp [div, isNaN, isInf, isZero, toReal, zero, hpi] <;> (try split_ifs) <;>
    simp_all [isFinite, toReal]

/-- A finite value compares equal to zero exactly when it stands for the real 0. -/
theorem isZero_iff_of_finite (a : SUFLOAT) (ha : a.isFinite) : a.isZero ↔ a.toReal = 0 := by
  cases a <;> simp_all [isFinite, isZero, toReal]

/-- The principal argument never comes out infinite. -/
theorem atan2_not_isInf (y x : SUFLOAT) : ¬ (atan2 y x).isInf := by
  unfold atan2 zero
  split_ifs <;> simp [isInf]

/-- Dividing by π and multiplying by π again gives back any value that is not infinite. -/
theorem mul_pi_div_pi (a : SUFLOAT) (ha : ¬ a.isInf) :
    mul (div a (num Real.pi)) (num Real.pi) = a := by
  have hpi := Real.pi_ne_zero
  have hneg : ¬ Real.pi < 0 := not_lt.mpr Real.pi_pos.le
  cases a with
  | num x =>
    by_cases hx : x = 0
    · subst hx
      have hd : div (num 0) (num Real.pi) = num 0 := by
        simp [div, isNaN, isInf, isZero, toReal, zero, signBit, hpi, Xor', hneg]
      rw [hd]
      simp [mul, isNaN, isInf, isZero, toReal, zero, signBit, Xor', hneg]
    · have hq : x / Real.pi ≠ 0 := div_ne_zero hx hpi
      have hd : div (num x) (num Real.pi) = num (x / Real.pi) := by
        simp [div, isNaN, isInf, isZero, toReal, hpi, hx]
      rw [hd]
      simp [mul, isNaN, isInf, toReal, hpi, hx]
  | negZero =>
    have hd : div negZero (num Real.pi) = negZero := by
      simp [div, isNaN, isInf, isZero, toReal, zero, signBit, hpi, Xor', hneg]
    rw [hd]
    simp [mul, isNaN, isInf, isZero, toReal, zero, signBit, Xor', hneg]
  | posInf => exact absurd trivial ha
  | negInf => exact absurd trivial ha
  | nan => simp [div, mul, isNaN]

/-- On finite operands that are not both zero, `atan2f(y, x)` is, as an angle, the argument
of `x + iy`. -/
theorem atan2_coe_angle (y x : SUFLOAT) (hy : y.isFinite) (hx : x.isFinite)
    (hne : ¬ (x.isZero ∧ y.isZero)) :
    (((atan2 y x).toReal : ℝ) : Real.Angle) =
      ((Complex.arg ⟨x.toReal, y.toReal⟩ : ℝ) : Real.Angle) := by
  have hnx : ¬ x.isNaN := not_isNaN_of_finite x hx
  have hny : ¬ y.isNaN := not_isNaN_of_finite y hy
  have hix : ¬ x.isInf := by cases x <;> simp_all [isFinite, isInf]
  have hiy : ¬ y.isInf := by cases y <;> simp_all [isFinite, isInf]
  by_cases hz : y.isZero
  · have hy0 : y.toReal = 0 := (isZero_iff_of_finite y hy).mp hz
    have hxz : ¬ x.isZero := fun h => hne ⟨h, hz⟩
    have hx0 : x.toReal ≠ 0 := fun h => hxz ((isZero_iff_of_finite x hx).mpr h)
    have hsx : x.signBit ↔ x.toReal < 0 := by
      cases x <;> simp_all [isFinite, signBit, toReal, isZero]
    have hc : (⟨x.toReal, y.toReal⟩ : ℂ) = ((x.toReal : ℝ) : ℂ) := by
      rw [hy0]
      rfl
    rw [hc]
    by_cases hs : x.signBit
    · have hneg : x.toReal < 0 := hsx.mp hs
      rw [Complex.arg_ofReal_of_neg hneg]
      by_cases hys : y.signBit
      · simp [atan2, hnx, hny, hix, hiy, hz, hs, hys, toReal]
      · simp [atan2, hnx, hny, hix, hiy, hz, hs, hys, toReal]
    · have hpos : 0 ≤ x.toReal := by
        by_contra hcon
        exact hs (hsx.mpr (by linarith))
      rw [Complex.arg_ofReal_of_nonneg hpos]
      simp only [atan2, hnx, hny, or_self, if_false, hiy, hix, hz, if_true, hs, zero]
      split_ifs <;> simp [toReal]
  · simp [atan2, hnx, hny, hix, hiy, hz, toReal]

end SUFLOAT

/-- The product `I * z` of a finite sample is the exact quarter turn of it. -/
theorem mulI_finite (z : SUCOMPLEX) (hz : z.isFinite) :
    (SUCOMPLEX.mul I z).isFinite ∧
    (SUCOMPLEX.mul I z).toComplex = Complex.I * z.toComplex := by
  obtain ⟨hr, hi⟩ := hz
  have h0 : (SUFLOAT.num 0).isFinite := trivial
  have h1 : (SUFLOAT.num 1).isFinite := trivial
  obtain ⟨a1, a2⟩ := SUFLOAT.mul_finite (SUFLOAT.num 0) z.re h0 hr
  obtain ⟨b1, b2⟩ := SUFLOAT.mul_finite (SUFLOAT.num 1) z.im h1 hi
  obtain ⟨c1, c2⟩ := SUFLOAT.mul_finite (SUFLOAT.num 0) z.im h0 hi
  obtain ⟨d1, d2⟩ := SUFLOAT.mul_finite (SUFLOAT.num 1) z.re h1 hr
  obtain ⟨x1, x2⟩ := SUFLOAT.sub_finite _ _ a1 b1
  obtain ⟨y1, y2⟩ := SUFLOAT.add_finite _ _ c1 d1
  have hx : ¬ (SUFLOAT.sub (SUFLOAT.mul (SUFLOAT.num 0) z.re)
      (SUFLOAT.mul (SUFLOAT.num 1) z.im)).isNaN := SUFLOAT.not_isNaN_of_finite _ x1
  have hmul : SUCOMPLEX.mul I z =
      ⟨SUFLOAT.sub (SUFLOAT.mul (SUFLOAT.num 0) z.re) (SUFLOAT.mul (SUFLOAT.num 1) z.im),
       SUFLOAT.add (SUFLOAT.mul (SUFLOAT.num 0) z.im) (SUFLOAT.mul (SUFLOAT.num 1) z.re)⟩ := by
    unfold SUCOMPLEX.mul I
    simp only [hx, false_and, if_false]
  rw [hmul]
  refine ⟨⟨x1, y1⟩, ?_⟩
  have t0 : (SUFLOAT.num 0).toReal = 0 := rfl
  have t1 : (SUFLOAT.num 1).toReal = 1 := rfl
  apply Complex.ext
  · show (SUFLOAT.sub (SUFLOAT.mul (SUFLOAT.num 0) z.re)
        (SUFLOAT.mul (SUFLOAT.num 1) z.im)).toReal = (Complex.I * z.toComplex).re
    rw [x2, a2, b2, t0, t1]
    simp [SUCOMPLEX.toComplex]
  · show (SUFLOAT.add (SUFLOAT.mul (SUFLOAT.num 0) z.im)
        (SUFLOAT.mul (SUFLOAT.num 1) z.re)).toReal = (Complex.I * z.toComplex).im
    rw [y2, c2, d2, t0, t1]
    simp [SUCOMPLEX.toComplex]

/-- For a finite sample the stored scalar has a zero imaginary part and a finite real part
between -1 and 1. -/
theorem argScalar_finite (z : SUCOMPLEX) (hz : z.isFinite) :
    (argScalar z).im = SUFLOAT.num 0 ∧ (argScalar z).re.isFinite ∧
    -1 ≤ (argScalar z).re.toReal ∧ (argScalar z).re.toReal ≤ 1 := by
  have hpi : 0 < Real.pi := Real.pi_pos
  obtain ⟨⟨m1, m2⟩, _⟩ := mulI_finite z hz
  obtain ⟨a1, a2, a3⟩ := SUFLOAT.atan2_finite _ _ m2 m1
  obtain ⟨d1, d2⟩ := SUFLOAT.div_pi_finite _ a1
  refine ⟨rfl, d1, ?_, ?_⟩
  · show -1 ≤ (SUFLOAT.div (SU_C_ARG (SUCOMPLEX.mul I z)) (SUFLOAT.num PI)).toReal
    unfold SU_C_ARG
    rw [d2, le_div_iff₀ hpi]
    linarith
  · show (SUFLOAT.div (SU_C_ARG (SUCOMPLEX.mul I z)) (SUFLOAT.num PI)).toReal ≤ 1
    unfold SU_C_ARG
    rw [d2, div_le_iff₀ hpi]
    linarith

/-- For a finite sample that is not zero, the phase of `I * z` is the phase of `z` advanced by
a quarter turn. -/
theorem arg_mulI_coe_angle (z : SUCOMPLEX) (hz : z.isFinite) (hne : z.neZero) :
    (((SU_C_ARG (SUCOMPLEX.mul I z)).toReal : ℝ) : Real.Angle) =
      (((SU_C_ARG z).toReal : ℝ) : Real.Angle) + ((PI / 2 : ℝ) : Real.Angle) := by
  obtain ⟨⟨m1, m2⟩, m3⟩ := mulI_finite z hz
  have hzc : z.toComplex ≠ 0 := by
    intro h
    apply hne
    have hre : z.re.toReal = 0 := by
      have := congrArg Complex.re h
      simpa [SUCOMPLEX.toComplex] using this
    have him : z.im.toReal = 0 := by
      have := congrArg Complex.im h
      simpa [SUCOMPLEX.toComplex] using this
    exact ⟨(SUFLOAT.isZero_iff_of_finite _ hz.1).mpr hre,
      (SUFLOAT.isZero_iff_of_finite _ hz.2).mpr him⟩
  have hmc : (SUCOMPLEX.mul I z).toComplex ≠ 0 := by
    rw [m3]
    exact mul_ne_zero Complex.I_ne_zero hzc
  have hne1 : ¬ ((SUCOMPLEX.mul I z).re.isZero ∧ (SUCOMPLEX.mul I z).im.isZero) := by
    intro h
    apply hmc
    apply Complex.ext
    · exact (SUFLOAT.isZero_iff_of_finite _ m1).mp h.1
    · exact (SUFLOAT.isZero_iff_of_finite _ m2).mp h.2
  have hne2 : ¬ (z.re.isZero ∧ z.im.isZero) := hne
  unfold SU_C_ARG
  rw [SUFLOAT.atan2_coe_angle _ _ m2 m1 hne1, SUFLOAT.atan2_coe_angle _ _ hz.2 hz.1 hne2]
  have e1 : (⟨(SUCOMPLEX.mul I z).re.toReal, (SUCOMPLEX.mul I z).im.toReal⟩ : ℂ) =
      Complex.I * z.toComplex := m3
  have e2 : (⟨z.re.toReal, z.im.toReal⟩ : ℂ) = z.toComplex := rfl
  rw [e1, e2, Complex.arg_mul_coe_angle Complex.I_ne_zero hzc, Complex.arg_I, add_comm]

/-- Multiplying the stored scalar by π gives back the phase of `I * z`. -/
theorem argScalar_mul_pi (z : SUCOMPLEX) :
    SUFLOAT.mul (argScalar z).re (SUFLOAT.num PI) = SU_C_ARG (SUCOMPLEX.mul I z) :=
  SUFLOAT.mul_pi_div_pi _ (SUFLOAT.atan2_not_isInf _ _)

/-- Products and sums of the special operands met below. -/
theorem special_products :
    SUFLOAT.mul (SUFLOAT.num 0) SUFLOAT.nan = SUFLOAT.nan ∧
    SUFLOAT.mul (SUFLOAT.num 1) SUFLOAT.nan = SUFLOAT.nan ∧
    SUFLOAT.mul (SUFLOAT.num 0) (SUFLOAT.num 0) = SUFLOAT.num 0 ∧
    SUFLOAT.mul (SUFLOAT.num 1) (SUFLOAT.num 0) = SUFLOAT.num 0 ∧
    SUFLOAT.mul (SUFLOAT.num 0) SUFLOAT.posInf = SUFLOAT.nan ∧
    SUFLOAT.mul (SUFLOAT.num 1) SUFLOAT.posInf = SUFLOAT.posInf ∧
    SUFLOAT.mul (SUFLOAT.num 0) SUFLOAT.negZero = SUFLOAT.negZero ∧
    SUFLOAT.mul (SUFLOAT.num 1) SUFLOAT.negZero = SUFLOAT.negZero ∧
    SUFLOAT.sub SUFLOAT.nan (SUFLOAT.num 0) = SUFLOAT.nan ∧
    SUFLOAT.add (SUFLOAT.num 0) SUFLOAT.nan = SUFLOAT.nan ∧
    SUFLOAT.add (SUFLOAT.num 0) SUFLOAT.posInf = SUFLOAT.posInf ∧
    SUFLOAT.sub SUFLOAT.negZero (SUFLOAT.num 0) = SUFLOAT.negZero ∧
    SUFLOAT.add (SUFLOAT.num 0) SUFLOAT.negZero = SUFLOAT.num 0 := by
  refine ⟨?_, ?_, ?_, ?_, ?_, ?_, ?_, ?_, ?_, ?_, ?_, ?_, ?_⟩ <;>
    simp [SUFLOAT.mul, SUFLOAT.add, SUFLOAT.sub, SUFLOAT.neg, SUFLOAT.isNaN, SUFLOAT.isInf,
      SUFLOAT.isZero, SUFLOAT.toReal, SUFLOAT.zero, SUFLOAT.inf, SUFLOAT.signBit, Xor']

/-- A sample with a NaN component is stored as NaN. -/
theorem argScalar_nan_sample :
    argScalar ⟨SUFLOAT.nan, SUFLOAT.num 0⟩ = ⟨SUFLOAT.nan, SUFLOAT.num 0⟩ := by
  obtain ⟨p1, p2, p3, p4, _, _, _, _, p9, p10, _, _, _⟩ := special_products
  have hm : SUCOMPLEX.mul I ⟨SUFLOAT.nan, SUFLOAT.num 0⟩ = ⟨SUFLOAT.nan, SUFLOAT.nan⟩ := by
    simp only [SUCOMPLEX.mul, I]
    simp only [p1, p2, p3, p4, p9, p10]
    simp [SUFLOAT.isNaN, SUFLOAT.isInf]
  simp [argScalar, SUCOMPLEX.ofFloat, SU_C_ARG, hm, SUFLOAT.atan2, SUFLOAT.div, SUFLOAT.isNaN]

/-- The sample `+inf + 0i` is stored as NaN. -/
theorem argScalar_inf_sample :
    argScalar ⟨SUFLOAT.posInf, SUFLOAT.num 0⟩ = ⟨SUFLOAT.nan, SUFLOAT.num 0⟩ := by
  obtain ⟨_, _, p3, p4, p5, p6, _, _, p9, _, p11, _, _⟩ := special_products
  have hm : SUCOMPLEX.mul I ⟨SUFLOAT.posInf, SUFLOAT.num 0⟩ =
      ⟨SUFLOAT.nan, SUFLOAT.posInf⟩ := by
    classical
    simp only [SUCOMPLEX.mul, I]
    simp only [p3, p4, p5, p6, p9, p11]
    simp [SUFLOAT.isNaN]
  simp [argScalar, SUCOMPLEX.ofFloat, SU_C_ARG, hm, SUFLOAT.atan2, SUFLOAT.div, SUFLOAT.isNaN]

/-- The sample `-0.0 + 0i` is stored as 1. -/
theorem argScalar_negZero_sample :
    argScalar ⟨SUFLOAT.negZero, SUFLOAT.num 0⟩ = ⟨SUFLOAT.num 1, SUFLOAT.num 0⟩ := by
  have hpi := Real.pi_ne_zero
  obtain ⟨_, _, p3, p4, _, _, p7, p8, _, _, _, p12, p13⟩ := special_products
  have hm : SUCOMPLEX.mul I ⟨SUFLOAT.negZero, SUFLOAT.num 0⟩ =
      ⟨SUFLOAT.negZero, SUFLOAT.num 0⟩ := by
    classical
    simp only [SUCOMPLEX.mul, I]
    simp only [p3, p4, p7, p8, p12, p13]
    simp [SUFLOAT.isNaN]
  have ha : SU_C_ARG ⟨SUFLOAT.negZero, SUFLOAT.num 0⟩ = SUFLOAT.num Real.pi := by
    simp [SU_C_ARG, SUFLOAT.atan2, SUFLOAT.isNaN, SUFLOAT.isInf, SUFLOAT.isZero,
      SUFLOAT.signBit]
  have hd : SUFLOAT.div (SUFLOAT.num Real.pi) (SUFLOAT.num Real.pi) = SUFLOAT.num 1 := by
    simp [SUFLOAT.div, SUFLOAT.isNaN, SUFLOAT.isInf, SUFLOAT.isZero, SUFLOAT.toReal, hpi]
  simp [argScalar, SUCOMPLEX.ofFloat, hm, ha, hd]

/-- On finite operands with `y` not zero, `atan2f(y, x)` is the exact argument of `x + iy`. -/
theorem atan2_of_ne_zero (y x : SUFLOAT) (hy : y.isFinite) (hx : x.isFinite)
    (hne : y.toReal ≠ 0) :
    SUFLOAT.atan2 y x = SUFLOAT.num (Complex.arg ⟨x.toReal, y.toReal⟩) := by
  have hnx : ¬ x.isNaN := SUFLOAT.not_isNaN_of_finite x hx
  have hny : ¬ y.isNaN := SUFLOAT.not_isNaN_of_finite y hy
  have hix : ¬ x.isInf := by cases x <;> simp_all [SUFLOAT.isFinite, SUFLOAT.isInf]
  have hiy : ¬ y.isInf := by cases y <;> simp_all [SUFLOAT.isFinite, SUFLOAT.isInf]
  have hz : ¬ y.isZero := fun h => hne ((SUFLOAT.isZero_iff_of_finite y hy).mp h)
  simp [SUFLOAT.atan2, hnx, hny, hix, hiy, hz]

/-- The sample `1` is stored as `1/2`. -/
theorem argScalar_one : argScalar 1 = ⟨SUFLOAT.num (1 / 2), SUFLOAT.num 0⟩ := by
  have hpi := Real.pi_ne_zero
  have hfin : (1 : SUCOMPLEX).isFinite := ⟨trivial, trivial⟩
  obtain ⟨⟨m1, m2⟩, m3⟩ := mulI_finite 1 hfin
  have hc : (1 : SUCOMPLEX).toComplex = 1 := by
    apply Complex.ext
    · show ((1 : ℕ) : ℝ) = 1
      exact Nat.cast_one
    · rfl
  rw [hc, mul_one] at m3
  have him : (SUCOMPLEX.mul I 1).im.toReal = 1 := by
    have := congrArg Complex.im m3
    simpa [SUCOMPLEX.toComplex] using this
  have hre : (SUCOMPLEX.mul I 1).re.toReal = 0 := by
    have := congrArg Complex.re m3
    simpa [SUCOMPLEX.toComplex] using this
  have ha : SU_C_ARG (SUCOMPLEX.mul I 1) = SUFLOAT.num (Real.pi / 2) := by
    unfold SU_C_ARG
    rw [atan2_of_ne_zero _ _ m2 m1 (by rw [him]; norm_num), him, hre]
    have : (⟨0, 1⟩ : ℂ) = Complex.I := rfl
    rw [this, Complex.arg_I]
  have hhalf : Real.pi / 2 / Real.pi = 1 / 2 := by
    field_simp
    ring
  have hd : SUFLOAT.div (SUFLOAT.num (Real.pi / 2)) (SUFLOAT.num Real.pi) =
      SUFLOAT.num (1 / 2) := by
    simp [SUFLOAT.div, SUFLOAT.isNaN, SUFLOAT.isInf, SUFLOAT.isZero, SUFLOAT.toReal, hpi,
      hhalf]
  unfold argScalar
  rw [ha]
  show SUCOMPLEX.ofFloat (SUFLOAT.div (SUFLOAT.num (Real.pi / 2)) (SUFLOAT.num Real.pi)) = _
  rw [hd]
  rfl

/-- A NaN operand makes a product, a sum or a difference NaN. -/
theorem SUFLOAT.nan_absorbs (a : SUFLOAT) :
    SUFLOAT.mul a SUFLOAT.nan = SUFLOAT.nan ∧ SUFLOAT.mul SUFLOAT.nan a = SUFLOAT.nan ∧
    SUFLOAT.add a SUFLOAT.nan = SUFLOAT.nan ∧ SUFLOAT.add SUFLOAT.nan a = SUFLOAT.nan ∧
    SUFLOAT.sub a SUFLOAT.nan = SUFLOAT.nan ∧ SUFLOAT.sub SUFLOAT.nan a = SUFLOAT.nan := by
  refine ⟨?_, ?_, ?_, ?_, ?_, ?_⟩ <;>
    simp [SUFLOAT.mul, SUFLOAT.add, SUFLOAT.sub, SUFLOAT.neg, SUFLOAT.isNaN]

/-- The product `I * z` of a sample with a NaN component has a NaN component. -/
theorem mulI_nan (z : SUCOMPLEX) (h : z.re.isNaN ∨ z.im.isNaN) :
    (SUCOMPLEX.mul I z).re.isNaN ∨ (SUCOMPLEX.mul I z).im.isNaN := by
  classical
  obtain ⟨re, im⟩ := z
  have hx : SUFLOAT.sub (SUFLOAT.mul (SUFLOAT.num 0) re) (SUFLOAT.mul (SUFLOAT.num 1) im) =
      SUFLOAT.nan := by
    rcases h with h | h
    · have : re = SUFLOAT.nan := by cases re <;> simp_all [SUFLOAT.isNaN]
      rw [this, (SUFLOAT.nan_absorbs _).1, (SUFLOAT.nan_absorbs _).2.2.2.2.2]
    · have : im = SUFLOAT.nan := by cases im <;> simp_all [SUFLOAT.isNaN]
      rw [this, (SUFLOAT.nan_absorbs _).1, (SUFLOAT.nan_absorbs _).2.2.2.2.1]
  have hy : SUFLOAT.add (SUFLOAT.mul (SUFLOAT.num 0) im) (SUFLOAT.mul (SUFLOAT.num 1) re) =
      SUFLOAT.nan := by
    rcases h with h | h
    · have : re = SUFLOAT.nan := by cases re <;> simp_all [SUFLOAT.isNaN]
      rw [this, (SUFLOAT.nan_absorbs _).1, (SUFLOAT.nan_absorbs _).2.2.1]
    · have : im = SUFLOAT.nan := by cases im <;> simp_all [SUFLOAT.isNaN]
      rw [this, (SUFLOAT.nan_absorbs _).1, (SUFLOAT.nan_absorbs _).2.2.2.1]
  have hnz : ¬ ((SUFLOAT.num 0).isInf ∨ (SUFLOAT.num 1).isInf) := by
    simp [SUFLOAT.isInf]
  have hmul : SUCOMPLEX.mul I ⟨re, im⟩ =
      if re.isInf ∨ im.isInf then
        ⟨SUFLOAT.mul SUFLOAT.posInf
            (SUFLOAT.sub (SUFLOAT.mul (SUFLOAT.num 0) re.box) (SUFLOAT.mul (SUFLOAT.num 1) im.box)),
         SUFLOAT.mul SUFLOAT.posInf
            (SUFLOAT.add (SUFLOAT.mul (SUFLOAT.num 0) im.box) (SUFLOAT.mul (SUFLOAT.num 1) re.box))⟩
      else ⟨SUFLOAT.nan, SUFLOAT.nan⟩ := by
    simp only [SUCOMPLEX.mul, I]
    simp only [hx, hy, hnz, if_false, false_or]
    by_cases hw : re.isInf ∨ im.isInf
    · simp [hw, SUFLOAT.isNaN, SUFLOAT.unNaN]
    · simp [hw, SUFLOAT.isNaN]
  rw [hmul]
  have h10 : ¬ (1 : ℝ) < 0 := by norm_num
  have hm10 : (-1 : ℝ) < 0 := by norm_num
  rcases h with h | h
  · have hre : re = SUFLOAT.nan := by cases re <;> simp_all [SUFLOAT.isNaN]
    subst hre
    cases im <;>
      simp [SUFLOAT.isInf, SUFLOAT.isNaN, SUFLOAT.box, SUFLOAT.zero, SUFLOAT.signBit,
        SUFLOAT.mul, SUFLOAT.add, SUFLOAT.sub, SUFLOAT.neg, SUFLOAT.isZero, SUFLOAT.toReal,
        SUFLOAT.inf, Xor', h10, hm10]
  · have him : im = SUFLOAT.nan := by cases im <;> simp_all [SUFLOAT.isNaN]
    subst him
    cases re <;>
      simp [SUFLOAT.isInf, SUFLOAT.isNaN, SUFLOAT.box, SUFLOAT.zero, SUFLOAT.signBit,
        SUFLOAT.mul, SUFLOAT.add, SUFLOAT.sub, SUFLOAT.neg, SUFLOAT.isZero, SUFLOAT.toReal,
        SUFLOAT.inf, Xor', h10, hm10]

/-- A sample with a NaN component is stored as NaN. -/
theorem argScalar_nan (z : SUCOMPLEX) (h : z.re.isNaN ∨ z.im.isNaN) :
    argScalar z = ⟨SUFLOAT.nan, SUFLOAT.num 0⟩ := by
  have hm := mulI_nan z h
  have ha : SU_C_ARG (SUCOMPLEX.mul I z) = SUFLOAT.nan := by
    unfold SU_C_ARG SUFLOAT.atan2
    rw [if_pos (Or.symm hm)]
  unfold argScalar
  rw [ha]
  simp [SUCOMPLEX.ofFloat, SUFLOAT.div, SUFLOAT.isNaN]

/-- The armed sample state has the session of each raised flag. -/
theorem armedState_sessionsPresent (mode : DecisionMode) (baud : ℚ) :
    sessionsPresent (armedState mode baud) :=
  ⟨fun _ => rfl, fun _ => rfl⟩

/-! ## Lemmas on the rate-change handler -/

/-- What `setBps` leaves alone. -/
theorem setBps_frame (b : Nat) (s : InspectorUI) :
    (setBps b s).recording = s.recording ∧ (setBps b s).forwarding = s.forwarding ∧
    (setBps b s).dataSaver = s.dataSaver ∧ (setBps b s).socketForwarder = s.socketForwarder ∧
    (setBps b s).sink = s.sink ∧ (setBps b s).recordingRate = s.recordingRate ∧
    (setBps b s).saverUI = s.saverUI ∧ (setBps b s).netForwarderUI = s.netForwarderUI ∧
    (setBps b s).saversToDelete = s.saversToDelete ∧
    (setBps b s).forwardersToDelete = s.forwardersToDelete ∧
    (setBps b s).sinkCloses = s.sinkCloses ∧ (setBps b s).nextObj = s.nextObj ∧
    (setBps b s).nextSink = s.nextSink ∧ (setBps b s).config = s.config := by
  unfold setBps
  split_ifs <;> exact ⟨rfl, rfl, rfl, rfl, rfl, rfl, rfl, rfl, rfl, rfl, rfl, rfl, rfl, rfl⟩

/-- The file name depends on the state through the configuration and the save path only. -/
theorem captureFileName_congr (env : Env) (s t : InspectorUI) (hc : t.config = s.config)
    (hp : t.saverUI.recordSavePath = s.saverUI.recordSavePath) :
    captureFileName env t = captureFileName env s := by
  have hpath : ∀ i, capturePath t i = capturePath s i := by
    intro i
    simp [capturePath, getClassName, getBaudRate, hc, hp]
  have hloop : ∀ fuel i, captureLoop env t fuel i = captureLoop env s fuel i := by
    intro fuel
    induction fuel with
    | zero => intro i; rfl
    | succ n ih => intro i; simp [captureLoop, hpath, ih]
  exact hloop _ _

/-- The network block of the rate-change handler leaves the file session alone. -/
theorem controlChangedForward_frame (n o : Nat) (s : InspectorUI) :
    (controlChangedForward n o s).recording = s.recording ∧
    (controlChangedForward n o s).dataSaver = s.dataSaver ∧
    (controlChangedForward n o s).sink = s.sink ∧
    (controlChangedForward n o s).saversToDelete = s.saversToDelete ∧
    (controlChangedForward n o s).sinkCloses = s.sinkCloses ∧
    (controlChangedForward n o s).nextSink = s.nextSink ∧
    (controlChangedForward n o s).config = s.config ∧
    (n = s.recordingRate ∨ n = 0 ∨ n = o →
      (controlChangedForward n o s).recordingRate = s.recordingRate) := by
  unfold controlChangedForward installNetForwarder uninstallNetForwarder
  cases hf : s.forwarding <;> cases hsf : s.socketForwarder <;>
    by_cases h0 : n = 0 <;> by_cases h1 : n = s.recordingRate <;> by_cases h2 : n = o <;>
    simp_all

/-- The network block on a zero rate: forwarding ends and an active forwarder is removed. -/
theorem controlChangedForward_zero (o : Nat) (s : InspectorUI) (ho : o ≠ 0) :
    (controlChangedForward 0 o s).forwarding = false ∧
    (s.forwarding = true → (controlChangedForward 0 o s).socketForwarder = none) := by
  unfold controlChangedForward uninstallNetForwarder
  cases hf : s.forwarding <;> cases hsf : s.socketForwarder <;> simp [hf, hsf, Ne.symm ho]

/-- The rate-change handler returns whenever its file block does, and its remaining steps
read the capture state off the network block. -/
theorem onInspectorControlChanged_of_record (env : Env) (s s1 : InspectorUI)
    (h : controlChangedRecord env (getBaudRate s) s.recordingRate s = some s1) :
    ∃ t, onInspectorControlChanged env s = some t ∧
      t.recording = (controlChangedForward (getBaudRate s) s.recordingRate s1).recording ∧
      t.forwarding = (controlChangedForward (getBaudRate s) s.recordingRate s1).forwarding ∧
      t.dataSaver = (controlChangedForward (getBaudRate s) s.recordingRate s1).dataSaver ∧
      t.socketForwarder =
        (controlChangedForward (getBaudRate s) s.recordingRate s1).socketForwarder ∧
      t.sink = (controlChangedForward (getBaudRate s) s.recordingRate s1).sink ∧
      t.recordingRate =
        (controlChangedForward (getBaudRate s) s.recordingRate s1).recordingRate ∧
      t.saversToDelete =
        (controlChangedForward (getBaudRate s) s.recordingRate s1).saversToDelete ∧
      t.sinkCloses = (controlChangedForward (getBaudRate s) s.recordingRate s1).sinkCloses ∧
      t.saverUI.enabled = decide (getBaudRate s ≠ 0) ∧
      t.netForwarderUI.enabled = decide (getBaudRate s ≠ 0) ∧
      t.saverUI.recordState =
        (controlChangedForward (getBaudRate s) s.recordingRate s1).saverUI.recordState ∧
      t.netForwarderUI.forwardState =
        (controlChangedForward (getBaudRate s) s.recordingRate s1).netForwarderUI.forwardState := by
  unfold onInspectorControlChanged
  simp only [h, Option.map_some']
  refine ⟨_, rfl, ?_⟩
  generalize controlChangedForward (getBaudRate s) s.recordingRate s1 = s2
  obtain ⟨b1, b2, b3, b4, b5, b6, b7, b8, b9, _, b11, _, _, _⟩ :=
    setBps_frame
      (getBps { s2 with
        saverUI := { s2.saverUI with enabled := decide (getBaudRate s ≠ 0) }
        netForwarderUI := { s2.netForwarderUI with enabled := decide (getBaudRate s ≠ 0) } })
      { s2 with
        saverUI := { s2.saverUI with enabled := decide (getBaudRate s ≠ 0) }
        netForwarderUI := { s2.netForwarderUI with enabled := decide (getBaudRate s ≠ 0) } }
  dsimp only
  refine ⟨b1, b2, b3, b4, b5, b6, b9, b11, ?_, ?_, ?_, ?_⟩
  · rw [b7]
  · rw [b8]
  · rw [b7]
  · rw [b8]

/-- The file block when the configured rate equals the recording rate. -/
theorem controlChangedRecord_same (env : Env) (s : InspectorUI) (n : Nat) :
    controlChangedRecord env n n s = some s := by
  simp [controlChangedRecord]

/-- The file block when the rate drops to zero while recording at a non-zero rate. -/
theorem controlChangedRecord_zero (env : Env) (s : InspectorUI) (o : Nat) (ho : o ≠ 0)
    (hr : s.recording = true) :
    ∃ s1, controlChangedRecord env 0 o s = some s1 ∧
      s1.recording = false ∧ s1.dataSaver = none ∧ s1.sink = none ∧
      (∀ d, s.dataSaver = some d → d ∈ s1.saversToDelete) ∧
      (∀ h, s.sink = some h → h ∈ s1.sinkCloses) := by
  unfold controlChangedRecord uninstallDataSaver
  cases hd : s.dataSaver <;> cases hk : s.sink <;> simp [hr, hd, hk, Ne.symm ho]

/-- What `uninstallDataSaver` does: the session and the sink are gone, the session is queued
for deletion and the sink is closed; nothing else of the capture state moves. -/
theorem uninstallDataSaver_spec (s : InspectorUI) :
    (uninstallDataSaver s).dataSaver = none ∧ (uninstallDataSaver s).sink = none ∧
    (∀ d, s.dataSaver = some d → d ∈ (uninstallDataSaver s).saversToDelete) ∧
    (∀ h, s.sink = some h → h ∈ (uninstallDataSaver s).sinkCloses) ∧
    (uninstallDataSaver s).config = s.config ∧
    (uninstallDataSaver s).saverUI = s.saverUI ∧
    (uninstallDataSaver s).nextObj = s.nextObj ∧
    (uninstallDataSaver s).nextSink = s.nextSink ∧
    (uninstallDataSaver s).recording = s.recording ∧
    (uninstallDataSaver s).recordingRate = s.recordingRate := by
  unfold uninstallDataSaver
  cases hd : s.dataSaver <;> cases hk : s.sink <;> simp [hd, hk]

/-- What `installDataSaver` does on an empty slot once the file name is found. -/
theorem installDataSaver_empty (env : Env) (u : InspectorUI) (path : String)
    (hd : u.dataSaver = none) (hp : captureFileName env u = some path) :
    installDataSaver env u =
      some (if env.sinkOpen path = true then
        (true,
          { u with
            sink := some u.nextSink
            nextSink := u.nextSink + 1
            dataSaver := some
              { objId := u.nextObj
                writer := { sink := some u.nextSink, lastError := "" }
                sampleRate := some (getBaudRate u)
                connected := true
                written := [] }
            recordingRate := getBaudRate u
            nextObj := u.nextObj + 1 })
      else
        (false,
          { u with
            sink := none
            dialogs := u.dialogs ++
              ["Failed to open capture file <pre>" ++ "" ++ "</pre>: " ++ env.strerror] })) := by
  unfold installDataSaver
  simp only [hd, hp]
  split_ifs <;> rfl

/-- The file block when the rate changes to a non-zero value while recording. -/
theorem controlChangedRecord_change (env : Env) (s : InspectorUI) (n : Nat) (path : String)
    (hr : s.recording = true) (hn : n ≠ 0) (hne : n ≠ s.recordingRate)
    (hp : captureFileName env s = some path) :
    ∃ s1, controlChangedRecord env n s.recordingRate s = some s1 ∧
      (∀ d, s.dataSaver = some d → d ∈ s1.saversToDelete) ∧
      (∀ h, s.sink = some h → h ∈ s1.sinkCloses) ∧
      (env.sinkOpen path = true →
        s1.recording = true ∧ s1.recordingRate = getBaudRate s ∧
        s1.sink = some s.nextSink ∧
        s1.dataSaver = some
          { objId := s.nextObj
            writer := { sink := some s.nextSink, lastError := "" }
            sampleRate := some (getBaudRate s)
            connected := true
            written := [] }) ∧
      (env.sinkOpen path = false → s1.recording = false ∧ s1.dataSaver = none) := by
  obtain ⟨u1, _, u3, u4, u5, u6, u7, u8, _, _⟩ :=
    uninstallDataSaver_spec { s with recording := false }
  have hcf : captureFileName env (uninstallDataSaver { s with recording := false }) =
      some path := by
    rw [← hp]
    exact captureFileName_congr env s _ u5 (by rw [u6])
  have hbaud : getBaudRate (uninstallDataSaver { s with recording := false }) =
      getBaudRate s := by
    unfold getBaudRate
    rw [u5]
  unfold controlChangedRecord
  simp only [hr, true_and, ne_eq, hne, not_false_eq_true, if_true, hn, if_false,
    installDataSaver_empty env _ path u1 hcf, Option.map_some']
  refine ⟨_, rfl, ?_⟩
  cases ho : env.sinkOpen path
  · refine ⟨u3, u4, ?_, ?_⟩
    · intro h
      exact absurd h (by simp)
    · intro _
      exact ⟨rfl, u1⟩
  · refine ⟨u3, u4, ?_, ?_⟩
    · intro _
      refine ⟨rfl, hbaud, ?_, ?_⟩
      · show some _ = some _
        rw [u8]
      · show some _ = some _
        rw [u7, u8, hbaud]
    · intro h
      exact absurd h (by simp)

/-- The file block on a zero rate always returns; it leaves the forwarder alone and, when the
recording rate was non-zero, ends recording and removes an active file session. -/
theorem controlChangedRecord_zero_total (env : Env) (s : InspectorUI) :
    ∃ s1, controlChangedRecord env 0 s.recordingRate s = some s1 ∧
      s1.forwarding = s.forwarding ∧ s1.socketForwarder = s.socketForwarder ∧
      (s.recordingRate ≠ 0 →
        s1.recording = false ∧ (s.recording = true → s1.dataSaver = none)) := by
  unfold controlChangedRecord uninstallDataSaver
  cases hr : s.recording <;> cases hd : s.dataSaver <;> cases hk : s.sink <;>
    by_cases h0 : s.recordingRate = 0 <;> simp [hr, hd, hk, h0, Ne.symm]

/-! ## Further lemmas on `feed` -/

/-- The capture block touches the sessions and the scratch buffer only. -/
theorem feedCapture_frame (t u : InspectorUI) (data : List SUCOMPLEX)
    (h : feedCapture t data = some u) :
    u.decider = t.decider ∧ u.ui = t.ui ∧ u.recording = t.recording ∧
    u.forwarding = t.forwarding ∧ u.dataSaver.isSome = t.dataSaver.isSome ∧
    u.socketForwarder.isSome = t.socketForwarder.isSome := by
  unfold feedCapture writeSaver writeForwarder at h
  cases hr : t.recording <;> cases hf : t.forwarding <;>
    cases hd : t.dataSaver <;> cases hsf : t.socketForwarder <;>
    by_cases hm : t.decider.mode = DecisionMode.MODULUS <;>
    simp [hr, hf, hd, hsf, hm] at h <;> subst h <;> simp [hd, hsf, hr, hf]

/-- The capture block with neither flag raised does nothing. -/
theorem feedCapture_idle (t : InspectorUI) (data : List SUCOMPLEX)
    (hr : t.recording = false) (hf : t.forwarding = false) : feedCapture t data = some t := by
  simp [feedCapture, hr, hf]

/-- What the stages before the capture block do to the decider and to the symbol views. -/
theorem feedStages_decider (env : Env) (s : InspectorUI) (data : List SUCOMPLEX) :
    (s.demodulating = true ∧ 0 < s.decider.bps →
      (feedDecider env (feedEstimator env (feedDisplay s data)) data).decider =
        s.decider.feed env data ∧
      (feedDecider env (feedEstimator env (feedDisplay s data)) data).ui.symViewFed =
        s.ui.symViewFed ++ [(s.decider.feed env data).symbols] ∧
      (feedDecider env (feedEstimator env (feedDisplay s data)) data).ui.transitionFed =
        s.ui.transitionFed ++ [(s.decider.feed env data).symbols]) ∧
    (¬ (s.demodulating = true ∧ 0 < s.decider.bps) →
      (feedDecider env (feedEstimator env (feedDisplay s data)) data).decider = s.decider ∧
      (feedDecider env (feedEstimator env (feedDisplay s data)) data).ui.symViewFed =
        s.ui.symViewFed ∧
      (feedDecider env (feedEstimator env (feedDisplay s data)) data).ui.transitionFed =
        s.ui.transitionFed) := by
  have he : (feedEstimator env (feedDisplay s data)).decider = s.decider ∧
      (feedEstimator env (feedDisplay s data)).demodulating = s.demodulating ∧
      (feedEstimator env (feedDisplay s data)).ui.symViewFed = s.ui.symViewFed ∧
      (feedEstimator env (feedDisplay s data)).ui.transitionFed = s.ui.transitionFed := by
    unfold feedEstimator feedDisplay
    dsimp only
    split_ifs <;> exact ⟨rfl, rfl, rfl, rfl⟩
  obtain ⟨e1, e2, e3, e4⟩ := he
  generalize feedEstimator env (feedDisplay s data) = t at e1 e2 e3 e4
  unfold feedDecider
  rw [e1, e2]
  constructor
  · intro hc
    obtain ⟨h1, h2⟩ := hc
    simp [h1, h2, e3, e4]
  · intro hc
    by_cases h1 : s.demodulating = true
    · have h2 : ¬ 0 < s.decider.bps := fun h => hc ⟨h1, h⟩
      have h3 : s.decider.bps = 0 := by omega
      simp [h1, h3, e1, e3, e4]
    · simp [h1, e1, e3, e4]

/-- A feed returns whenever each raised flag has its session. -/
theorem feed_returns (env : Env) (s : InspectorUI) (data : List SUCOMPLEX)
    (hs : sessionsPresent s) : ∃ u, feed env s data = some u := by
  by_cases hm : s.decider.mode = DecisionMode.MODULUS
  · obtain ⟨u, hu, _⟩ := feed_modulus env s data hm hs
    exact ⟨u, hu⟩
  · by_cases hfl : s.recording = true ∨ s.forwarding = true
    · obtain ⟨u, hu, _⟩ := feed_argument env s data hm hs hfl
      exact ⟨u, hu⟩
    · obtain ⟨f1, f2, _, _, _, _⟩ := feedStages_frame env s data
      have hr : s.recording = false := by
        cases h : s.recording
        · rfl
        · exact absurd (Or.inl h) hfl
      have hf : s.forwarding = false := by
        cases h : s.forwarding
        · rfl
        · exact absurd (Or.inr h) hfl
      exact ⟨_, feedCapture_idle _ data (f1.trans hr) (f2.trans hf)⟩

/-! ## Lemmas on the capture file name and on the scratch buffer contents -/

/-- The search loop returns the first unused suffix after the counter it is entered with,
given enough iterations and no wrap of the counter. -/
theorem captureLoop_finds (env : Env) (s : InspectorUI) :
    ∀ (fuel i0 i : Nat), i0 < i → i < 2 ^ 32 → i - i0 ≤ fuel →
      (∀ j, i0 < j → j < i → env.access (capturePath s j) = true) →
      env.access (capturePath s i) = false →
      captureLoop env s fuel i0 = some (capturePath s i) := by
  intro fuel
  induction fuel with
  | zero =>
    intro i0 i h1 _ h3 _ _
    omega
  | succ n ih =>
    intro i0 i h1 h2 h3 hused hfree
    have hmod : (i0 + 1) % 2 ^ 32 = i0 + 1 := Nat.mod_eq_of_lt (by omega)
    unfold captureLoop
    simp only [hmod]
    by_cases hi : i0 + 1 = i
    · rw [hi, hfree]
      simp
    · have hlt : i0 + 1 < i := by omega
      rw [hused (i0 + 1) (by omega) hlt]
      simp only [if_true]
      exact ih (i0 + 1) i hlt h2 (by omega)
        (fun j hj1 hj2 => hused j (by omega) hj2) hfree

/-- The conversion loop overwrites the first `size` elements and keeps the rest. -/
theorem fillBuffer_eq (buffer data : List SUCOMPLEX) (h : data.length ≤ buffer.length) :
    fillBuffer buffer data = data.map argScalar ++ buffer.drop data.length := by
  apply List.ext_getElem?
  intro j
  unfold fillBuffer
  rw [foldl_set_getElem?]
  by_cases hj : j < data.length
  · have hb : j < buffer.length := by omega
    rw [List.getElem?_append_left (by simpa using hj)]
    simp [hj, hb, List.getD_eq_getElem?_getD, List.getElem?_eq_getElem hj]
  · have hle : data.length ≤ j := by omega
    rw [List.getElem?_append_right (by simpa using hle)]
    simp [hj, List.getElem?_drop]
    congr 1
    omega

/-- Growing the buffer to the batch size adds nothing beyond the batch. -/
theorem resizeBuffer_drop (buffer : List SUCOMPLEX) (size : Nat) :
    (resizeBuffer buffer size).drop size = buffer.drop size := by
  unfold resizeBuffer
  split_ifs with h
  · rw [List.drop_eq_nil_of_le (by simp; omega), List.drop_eq_nil_of_le (by omega)]
  · rfl

/-- The scratch buffer after a converting feed. -/
theorem scratch_after_fill (buffer data : List SUCOMPLEX) :
    fillBuffer (resizeBuffer buffer data.length) data =
      data.map argScalar ++ buffer.drop data.length := by
  rw [fillBuffer_eq _ _ (resizeBuffer_length_ge buffer data.length), resizeBuffer_drop]

/-! ## Lemmas on the actions: decider settings and session flags -/

/-- What `installDataSaver` leaves alone, and that success leaves a session installed. -/
theorem installDataSaver_frame (env : Env) (s t : InspectorUI) (b : Bool)
    (h : installDataSaver env s = some (b, t)) :
    t.decider = s.decider ∧ t.forwarding = s.forwarding ∧
    t.socketForwarder = s.socketForwarder ∧ t.recording = s.recording ∧
    (b = true → t.dataSaver.isSome = true) := by
  unfold installDataSaver at h
  cases hd : s.dataSaver with
  | some d =>
    simp only [hd] at h
    cases h
    exact ⟨rfl, rfl, rfl, rfl, fun hb => absurd hb (by simp)⟩
  | none =>
    simp only [hd] at h
    cases hp : captureFileName env s with
    | none => simp [hp] at h
    | some path =>
      simp only [hp] at h
      cases ho : env.sinkOpen path
      · simp [ho] at h
        obtain ⟨hb, ht⟩ := h
        subst hb
        subst ht
        exact ⟨rfl, rfl, rfl, rfl, fun hb => absurd hb (by simp)⟩
      · simp [ho] at h
        obtain ⟨hb, ht⟩ := h
        subst ht
        exact ⟨rfl, rfl, rfl, rfl, fun _ => rfl⟩

/-- What `uninstallDataSaver` leaves alone. -/
theorem uninstallDataSaver_frame (s : InspectorUI) :
    (uninstallDataSaver s).decider = s.decider ∧
    (uninstallDataSaver s).forwarding = s.forwarding ∧
    (uninstallDataSaver s).socketForwarder = s.socketForwarder ∧
    (uninstallDataSaver s).recording = s.recording := by
  unfold uninstallDataSaver
  cases hd : s.dataSaver <;> cases hk : s.sink <;> simp [hd, hk]

/-- What `installNetForwarder` leaves alone, and that success leaves a forwarder
installed. -/
theorem installNetForwarder_frame (s : InspectorUI) :
    (installNetForwarder s).2.decider = s.decider ∧
    (installNetForwarder s).2.recording = s.recording ∧
    (installNetForwarder s).2.dataSaver = s.dataSaver ∧
    (installNetForwarder s).2.forwarding = s.forwarding ∧
    ((installNetForwarder s).1 = true →
      (installNetForwarder s).2.socketForwarder.isSome = true) := by
  unfold installNetForwarder
  cases hf : s.socketForwarder <;> simp [hf]

/-- What `uninstallNetForwarder` leaves alone. -/
theorem uninstallNetForwarder_frame (s : InspectorUI) :
    (uninstallNetForwarder s).decider = s.decider ∧
    (uninstallNetForwarder s).recording = s.recording ∧
    (uninstallNetForwarder s).dataSaver = s.dataSaver ∧
    (uninstallNetForwarder s).forwarding = s.forwarding := by
  unfold uninstallNetForwarder
  cases hf : s.socketForwarder <;> simp [hf]

/-- Session flags stay sound when the file side is sound and the network side is kept. -/
theorem sessionsPresent_of_file (s t : InspectorUI)
    (h1 : t.recording = true → t.dataSaver.isSome = true)
    (h2 : t.forwarding = s.forwarding) (h3 : t.socketForwarder = s.socketForwarder) :
    sessionsPresent s → sessionsPresent t := by
  intro hs
  refine ⟨h1, ?_⟩
  intro hf
  rw [h3]
  exact hs.2 (by rw [← h2]; exact hf)

/-- The record toggle keeps the decider and the session flags sound. -/
theorem onToggleRecord_sound (env : Env) (s t : InspectorUI)
    (h : onToggleRecord env s = some t) :
    t.decider = s.decider ∧ (sessionsPresent s → sessionsPresent t) := by
  unfold onToggleRecord at h
  cases htog : s.saverUI.recordState
  · rw [htog] at h
    simp only [Bool.false_eq_true, if_false, Option.map_some', Option.some.injEq] at h
    obtain ⟨u1, u2, u3, _⟩ := uninstallDataSaver_frame s
    have e1 : t.decider = s.decider := by rw [← h]; exact u1
    have e2 : t.recording = false := by rw [← h]
    have e3 : t.forwarding = s.forwarding := by rw [← h]; exact u2
    have e4 : t.socketForwarder = s.socketForwarder := by rw [← h]; exact u3
    exact ⟨e1, sessionsPresent_of_file s t (fun hr => absurd (e2 ▸ hr) (by simp)) e3 e4⟩
  · rw [htog] at h
    simp only [if_true] at h
    cases hi : installDataSaver env s with
    | none =>
      rw [hi] at h
      simp at h
    | some p =>
      obtain ⟨b, v⟩ := p
      rw [hi] at h
      simp only [Option.map_some', Option.some.injEq] at h
      obtain ⟨i1, i2, i3, _, i5⟩ := installDataSaver_frame env s v b hi
      have e1 : t.decider = s.decider := by rw [← h]; exact i1
      have e2 : t.recording = b := by rw [← h]
      have e3 : t.forwarding = s.forwarding := by rw [← h]; exact i2
      have e4 : t.socketForwarder = s.socketForwarder := by rw [← h]; exact i3
      have e5 : t.dataSaver = v.dataSaver := by rw [← h]
      exact ⟨e1, sessionsPresent_of_file s t
        (fun hr => by rw [e5]; exact i5 (e2 ▸ hr)) e3 e4⟩

/-- The forward toggle keeps the decider and the session flags sound. -/
theorem onToggleNetForward_sound (s : InspectorUI) :
    (onToggleNetForward s).decider = s.decider ∧
    (sessionsPresent s → sessionsPresent (onToggleNetForward s)) := by
  unfold onToggleNetForward installNetForwarder uninstallNetForwarder sessionsPresent
  cases htog : s.netForwarderUI.forwardState <;> cases hf : s.forwarding <;>
    cases hsf : s.socketForwarder <;> simp_all

/-- The failure handlers keep the decider and the session flags sound. -/
theorem failureHandlers_sound (s : InspectorUI) :
    ((onSaveError s).decider = s.decider ∧
      (sessionsPresent s → sessionsPresent (onSaveError s))) ∧
    ((onSaveSwamped s).decider = s.decider ∧
      (sessionsPresent s → sessionsPresent (onSaveSwamped s))) ∧
    ((onNetError s).decider = s.decider ∧
      (sessionsPresent s → sessionsPresent (onNetError s))) ∧
    ((onNetSwamped s).decider = s.decider ∧
      (sessionsPresent s → sessionsPresent (onNetSwamped s))) := by
  unfold onSaveError onSaveSwamped onNetError onNetSwamped uninstallDataSaver
    uninstallNetForwarder sessionsPresent
  cases hd : s.dataSaver <;> cases hf : s.socketForwarder <;> cases hk : s.sink <;>
    simp [hd, hf, hk]

/-- The file block of the rate-change handler keeps the decider and the session flags
sound. -/
theorem controlChangedRecord_sound (env : Env) (n o : Nat) (s t : InspectorUI)
    (h : controlChangedRecord env n o s = some t) :
    t.decider = s.decider ∧ (sessionsPresent s → sessionsPresent t) := by
  unfold controlChangedRecord at h
  by_cases hc : s.recording = true ∧ n ≠ o
  · rw [if_pos hc] at h
    dsimp only at h
    obtain ⟨u1, u2, u3, u4⟩ := uninstallDataSaver_frame { s with recording := false }
    by_cases h0 : n = 0
    · rw [if_pos h0] at h
      simp only [Option.map_some', Option.some.injEq] at h
      have e1 : t.decider = s.decider := by rw [← h]; exact u1
      have e2 : t.recording = false := by rw [← h]; exact u4
      have e3 : t.forwarding = s.forwarding := by rw [← h]; exact u2
      have e4 : t.socketForwarder = s.socketForwarder := by rw [← h]; exact u3
      exact ⟨e1, sessionsPresent_of_file s t (fun hr => absurd (e2 ▸ hr) (by simp)) e3 e4⟩
    · rw [if_neg h0] at h
      by_cases h1 : n ≠ s.recordingRate
      · rw [if_pos h1] at h
        cases hi : installDataSaver env (uninstallDataSaver { s with recording := false }) with
        | none =>
          rw [hi] at h
          simp at h
        | some p =>
          obtain ⟨b, v⟩ := p
          rw [hi] at h
          simp only [Option.map_some', Option.some.injEq] at h
          obtain ⟨i1, i2, i3, _, i5⟩ := installDataSaver_frame env _ v b hi
          have e1 : t.decider = s.decider := by rw [← h]; exact i1.trans u1
          have e2 : t.recording = b := by rw [← h]
          have e3 : t.forwarding = s.forwarding := by rw [← h]; exact i2.trans u2
          have e4 : t.socketForwarder = s.socketForwarder := by rw [← h]; exact i3.trans u3
          have e5 : t.dataSaver = v.dataSaver := by rw [← h]
          exact ⟨e1, sessionsPresent_of_file s t
            (fun hr => by rw [e5]; exact i5 (e2 ▸ hr)) e3 e4⟩
      · rw [if_neg h1] at h
        simp only [Option.map_some', Option.some.injEq] at h
        have e1 : t.decider = s.decider := by rw [← h]
        have e2 : t.recording = false := by rw [← h]
        have e3 : t.forwarding = s.forwarding := by rw [← h]
        have e4 : t.socketForwarder = s.socketForwarder := by rw [← h]
        exact ⟨e1, sessionsPresent_of_file s t (fun hr => absurd (e2 ▸ hr) (by simp)) e3 e4⟩
  · rw [if_neg hc] at h
    cases h
    exact ⟨rfl, id⟩

/-- The network block of the rate-change handler keeps the decider and the session flags
sound. -/
theorem controlChangedForward_sound (n o : Nat) (s : InspectorUI) :
    (controlChangedForward n o s).decider = s.decider ∧
    (sessionsPresent s → sessionsPresent (controlChangedForward n o s)) := by
  unfold controlChangedForward installNetForwarder uninstallNetForwarder sessionsPresent
  cases hf : s.forwarding <;> cases hsf : s.socketForwarder <;>
    by_cases h0 : n = 0 <;> by_cases h1 : n = s.recordingRate <;> by_cases h2 : n = o <;>
    simp_all

/-- The rate-change handler keeps the decision mode, minimum and maximum, and the session
flags sound. -/
theorem onInspectorControlChanged_sound (env : Env) (s t : InspectorUI)
    (h : onInspectorControlChanged env s = some t) :
    t.decider.mode = s.decider.mode ∧ t.decider.minimum = s.decider.minimum ∧
    t.decider.maximum = s.decider.maximum ∧ (sessionsPresent s → sessionsPresent t) := by
  cases h1 : controlChangedRecord env (getBaudRate s) s.recordingRate s with
  | none => simp [onInspectorControlChanged, h1] at h
  | some s1 =>
    obtain ⟨r1, r2⟩ := controlChangedRecord_sound env _ _ s s1 h1
    obtain ⟨f1, f2⟩ := controlChangedForward_sound (getBaudRate s) s.recordingRate s1
    obtain ⟨t', ht', k1, k2, k3, k4, _⟩ := onInspectorControlChanged_of_record env s s1 h1
    rw [h] at ht'
    cases ht'
    have hd : t.decider.mode = s.decider.mode ∧ t.decider.minimum = s.decider.minimum ∧
        t.decider.maximum = s.decider.maximum := by
      rw [← r1, ← f1]
      unfold onInspectorControlChanged at h
      simp only [h1, Option.map_some'] at h
      cases h
      unfold setBps
      dsimp only
      split_ifs <;> exact ⟨rfl, rfl, rfl⟩
    refine ⟨hd.1, hd.2.1, hd.2.2, ?_⟩
    intro hs
    have hs2 := f2 (r2 hs)
    unfold sessionsPresent
    rw [k1, k2, k3, k4]
    exact hs2

/-- A feed keeps the decision mode, minimum and maximum, and the session flags sound. -/
theorem feed_sound (env : Env) (s u : InspectorUI) (data : List SUCOMPLEX)
    (h : feed env s data = some u) :
    u.decider.mode = s.decider.mode ∧ u.decider.minimum = s.decider.minimum ∧
    u.decider.maximum = s.decider.maximum ∧ (sessionsPresent s → sessionsPresent u) := by
  obtain ⟨c1, _, c3, c4, c5, c6⟩ := feedCapture_frame _ u data h
  obtain ⟨f1, f2, f3, f4, _, _⟩ := feedStages_frame env s data
  obtain ⟨d1, d2⟩ := feedStages_decider env s data
  have hd : u.decider.mode = s.decider.mode ∧ u.decider.minimum = s.decider.minimum ∧
      u.decider.maximum = s.decider.maximum := by
    rw [c1]
    by_cases hc : s.demodulating = true ∧ 0 < s.decider.bps
    · rw [(d1 hc).1]
      exact ⟨rfl, rfl, rfl⟩
    · rw [(d2 hc).1]
      exact ⟨rfl, rfl, rfl⟩
  refine ⟨hd.1, hd.2.1, hd.2.2, ?_⟩
  intro hs
  unfold sessionsPresent
  rw [c3, c4, c5, c6, f1, f2, f3, f4]
  exact hs

/-- Every action keeps the decision mode, minimum and maximum, and the session flags
sound. -/
theorem step_sound (env : Env) (a : Action) (s t : InspectorUI) (h : step env a s = some t) :
    t.decider.mode = s.decider.mode ∧ t.decider.minimum = s.decider.minimum ∧
    t.decider.maximum = s.decider.maximum ∧ (sessionsPresent s → sessionsPresent t) := by
  cases a with
  | feed data => exact feed_sound env s t data h
  | setBps b =>
    simp only [step, Option.some.injEq] at h
    subst h
    obtain ⟨b1, b2, b3, b4, _⟩ := setBps_frame b s
    refine ⟨?_, ?_, ?_, ?_⟩
    · unfold setBps
      split_ifs <;> rfl
    · unfold setBps
      split_ifs <;> rfl
    · unfold setBps
      split_ifs <;> rfl
    · intro hs
      unfold sessionsPresent
      rw [b1, b2, b3, b4]
      exact hs
  | inspectorControlChanged => exact onInspectorControlChanged_sound env s t h
  | toggleRecord =>
    obtain ⟨h1, h2⟩ := onToggleRecord_sound env s t h
    exact ⟨by rw [h1], by rw [h1], by rw [h1], h2⟩
  | toggleNetForward =>
    simp only [step, Option.some.injEq] at h
    subst h
    obtain ⟨h1, h2⟩ := onToggleNetForward_sound s
    exact ⟨by rw [h1], by rw [h1], by rw [h1], h2⟩
  | saveError =>
    simp only [step, Option.some.injEq] at h
    subst h
    obtain ⟨⟨h1, h2⟩, _⟩ := failureHandlers_sound s
    exact ⟨by rw [h1], by rw [h1], by rw [h1], h2⟩
  | saveSwamped =>
    simp only [step, Option.some.injEq] at h
    subst h
    obtain ⟨_, ⟨h1, h2⟩, _⟩ := failureHandlers_sound s
    exact ⟨by rw [h1], by rw [h1], by rw [h1], h2⟩
  | netError =>
    simp only [step, Option.some.injEq] at h
    subst h
    obtain ⟨_, _, ⟨h1, h2⟩, _⟩ := failureHandlers_sound s
    exact ⟨by rw [h1], by rw [h1], by rw [h1], h2⟩
  | netSwamped =>
    simp only [step, Option.some.injEq] at h
    subst h
    obtain ⟨_, _, _, h1, h2⟩ := failureHandlers_sound s
    exact ⟨by rw [h1], by rw [h1], by rw [h1], h2⟩
  | userRecordToggle pressed =>
    simp only [step, Option.some.injEq] at h
    subst h
    exact ⟨rfl, rfl, rfl, id⟩
  | userForwardToggle pressed =>
    simp only [step, Option.some.injEq] at h
    subst h
    exact ⟨rfl, rfl, rfl, id⟩
  | configEdit config =>
    simp only [step, Option.some.injEq] at h
    subst h
    exact ⟨rfl, rfl, rfl, id⟩

/-- The decider settings and the capture state of a freshly constructed inspector. -/
theorem construct_fields (config : Config) (attached : Bool) (m : InspectorUI) :
    (construct config attached m).decider.mode = (constructDecider config m.decider).mode ∧
    (construct config attached m).decider.minimum =
      (constructDecider config m.decider).minimum ∧
    (construct config attached m).decider.maximum =
      (constructDecider config m.decider).maximum ∧
    (construct config attached m).recording = m.recording ∧
    (construct config attached m).forwarding = m.forwarding ∧
    (construct config attached m).dataSaver = m.dataSaver ∧
    (construct config attached m).socketForwarder = m.socketForwarder := by
  unfold construct refreshUi initUi setBps
  dsimp only
  split_ifs <;> exact ⟨rfl, rfl, rfl, rfl, rfl, rfl, rfl⟩

/-! ## Lemma on the teardown of a file session -/

/-- Arming on an empty slot and disarming again, then running the queued deletion: the sink
handle opened by `installDataSaver` is closed by `uninstallDataSaver` and once more by the
writer's destructor. -/
theorem teardown_closes_sink_twice (env : Env) (s : InspectorUI) (path : String)
    (hd : s.dataSaver = none) (hq : s.saversToDelete = [])
    (hp : captureFileName env s = some path) (ho : env.sinkOpen path = true) :
    ∃ s1, installDataSaver env s = some (true, s1) ∧ s1.sink = some s.nextSink ∧
      (uninstallDataSaver s1).sinkCloses = s.sinkCloses ++ [s.nextSink] ∧
      (processDeferredDeletes (uninstallDataSaver s1)).sinkCloses =
        s.sinkCloses ++ [s.nextSink, s.nextSink] ∧
      (destroyInspector s1).sinkCloses = s.sinkCloses ++ [s.nextSink] := by
  rw [installDataSaver_empty env s path hd hp, ho]
  refine ⟨_, rfl, rfl, ?_, ?_, ?_⟩
  · simp [uninstallDataSaver]
  · simp [processDeferredDeletes, uninstallDataSaver, hq, FileDataSaver.destroy,
      FileDataWriter.destroy, FileDataWriter.close]
  · simp [destroyInspector, FileDataSaver.destroy, FileDataWriter.destroy,
      FileDataWriter.close]

/-! ## Lemmas on the capture file name suffix -/

/-- A decimal digit character is a digit, denotes its number, and is `0` only for zero. -/
theorem digitChar_spec (k : Nat) (hk : k < 10) :
    (Nat.digitChar k).isDigit = true ∧ (Nat.digitChar k).toNat - 48 = k ∧
    (k ≠ 0 → Nat.digitChar k ≠ '0') := by
  interval_cases k <;> decide

/-- The digits produced by `Nat.toDigitsCore`, read back. -/
theorem toDigitsCore_spec (fuel : Nat) : ∀ (n : Nat) (ds : List Char), n < fuel →
    (∀ c ∈ ds, c.isDigit = true) →
    (∀ c ∈ Nat.toDigitsCore 10 fuel n ds, c.isDigit = true) ∧
    (Nat.toDigitsCore 10 fuel n ds).foldl (fun acc c => acc * 10 + (c.toNat - 48)) 0 =
      ds.foldl (fun acc c => acc * 10 + (c.toNat - 48)) n ∧
    (n ≠ 0 → (Nat.toDigitsCore 10 fuel n ds).head? ≠ some '0') ∧
    ds.length < (Nat.toDigitsCore 10 fuel n ds).length := by
  induction fuel with
  | zero => intro n ds h; omega
  | succ fuel ih =>
    intro n ds h hds
    obtain ⟨d1, d2, d3⟩ := digitChar_spec (n % 10) (Nat.mod_lt _ (by norm_num))
    have hcons : ∀ c ∈ Nat.digitChar (n % 10) :: ds, c.isDigit = true := by
      intro c hc
      rcases List.mem_cons.mp hc with rfl | hc
      · exact d1
      · exact hds c hc
    unfold Nat.toDigitsCore
    by_cases h0 : n / 10 = 0
    · simp only [h0, if_true]
      have hn : n % 10 = n := Nat.mod_eq_of_lt (by omega)
      refine ⟨hcons, ?_, ?_, by simp⟩
      · rw [List.foldl_cons, d2, hn]
        simp
      · intro hne
        simpa using d3 (by rw [hn]; exact hne)
    · simp only [h0, if_false]
      obtain ⟨i1, i2, i3, i4⟩ := ih (n / 10) (Nat.digitChar (n % 10) :: ds) (by omega) hcons
      refine ⟨i1, ?_, fun _ => i3 h0, ?_⟩
      · rw [i2, List.foldl_cons, d2, Nat.div_add_mod']
      · have : (Nat.digitChar (n % 10) :: ds).length = ds.length + 1 := rfl
        omega

/-- The decimal numeral of `i`: digits only, denoting `i`, without a leading zero unless
`i = 0`. -/
theorem toString_spec (i : Nat) :
    (∀ c ∈ (toString i).data, c.isDigit = true) ∧ decimalValue (toString i) = i ∧
    (i ≠ 0 → (toString i).data.head? ≠ some '0') ∧ 0 < (toString i).length := by
  obtain ⟨h1, h2, h3, h4⟩ := toDigitsCore_spec (i + 1) i [] (by omega) (by simp)
  exact ⟨h1, h2, h3, h4⟩

/-- The suffix `pad4 i` is a string of decimal digits denoting `i`, at least 4 characters
long, and longer only without a leading zero. -/
theorem pad4_spec (i : Nat) :
    (∀ c ∈ (pad4 i).data, c.isDigit = true) ∧ decimalValue (pad4 i) = i ∧
    4 ≤ (pad4 i).length ∧ (4 < (pad4 i).length → (pad4 i).data.head? ≠ some '0') := by
  obtain ⟨h1, h2, h3, h4⟩ := toString_spec i
  have hdata : (pad4 i).data =
      List.replicate (4 - (toString i).length) '0' ++ (toString i).data := by
    unfold pad4
    rw [String.data_append]
  have hzero : ∀ k : Nat, (List.replicate k '0').foldl
      (fun acc c => acc * 10 + (c.toNat - 48)) 0 = 0 := by
    intro k
    induction k with
    | zero => rfl
    | succ k ih => rw [List.replicate_succ, List.foldl_cons]; exact ih
  have hlen : (pad4 i).length = (4 - (toString i).length) + (toString i).length := by
    show (pad4 i).data.length = _
    rw [hdata, List.length_append, List.length_replicate]
    rfl
  refine ⟨?_, ?_, by omega, ?_⟩
  · intro c hc
    rw [hdata] at hc
    rcases List.mem_append.mp hc with hc | hc
    · rw [(List.mem_replicate.mp hc).2]
      rfl
    · exact h1 c hc
  · unfold decimalValue
    rw [hdata, List.foldl_append, hzero]
    exact h2
  · intro hlong
    have hk : 4 - (toString i).length = 0 := by omega
    rw [hdata, hk]
    have hne : i ≠ 0 := by
      rintro rfl
      have : (toString 0).length = 1 := by decide
      omega
    simpa using h3 hne

/-- Different suffixes give different padded numerals. -/
theorem pad4_injective (i j : Nat) (h : pad4 i = pad4 j) : i = j := by
  rw [← (pad4_spec i).2.1, ← (pad4_spec j).2.1, h]

/-- Sample suffixes. -/
theorem pad4_examples :
    pad4 1 = "0001" ∧ pad4 3 = "0003" ∧ pad4 42 = "0042" ∧ pad4 9999 = "9999" ∧
    pad4 12345 = "12345" := by decide

/-- Different suffixes give different capture paths. -/
theorem capturePath_injective (s : InspectorUI) (i j : Nat)
    (h : capturePath s i = capturePath s j) : i = j := by
  apply pad4_injective
  have hd := congrArg String.data h
  simp only [capturePath, String.data_append, List.append_assoc,
    List.append_cancel_left_eq] at hd
  have hd2 := List.append_cancel_right hd
  exact String.ext hd2

/-! ## The claims -/

/-- C1 (as amended): in a feed outside MODULUS mode with recording or forwarding on, for every
index `i < size` with `data[i] != 0` the value persisted for sample `i` is
`SU_C_ARG(I * data[i]) / PI`, the phase of the sample multiplied by the imaginary unit, over π;
multiplied by π it gives `SU_C_ARG(I * data[i])` (rounding is not represented), and when both
components of `data[i]` are finite the two phases are finite and `SU_C_ARG(I * data[i])` is
`SU_C_ARG(data[i]) + π/2` as an angle, that is modulo 2π. -/
theorem C1_argument_persists_quarter_turned_phase (env : Env) (s : InspectorUI)
    (data : List SUCOMPLEX) (hmode : s.decider.mode ≠ DecisionMode.MODULUS)
    (hs : sessionsPresent s) (hflag : s.recording = true ∨ s.forwarding = true) :
    ∃ u batch, feed env s data = some u ∧
      u.dataSaver =
        (if s.recording = true then s.dataSaver.map (fun d => d.write batch)
         else s.dataSaver) ∧
      u.socketForwarder =
        (if s.forwarding = true then s.socketForwarder.map (fun f => f.write batch)
         else s.socketForwarder) ∧
      batch.length = data.length ∧
      ∀ (i : Nat) (h : i < data.length), SUCOMPLEX.neZero data[i] →
        batch[i]? = some (SUCOMPLEX.ofFloat
          (SUFLOAT.div (SU_C_ARG (SUCOMPLEX.mul I data[i])) (SUFLOAT.num PI))) ∧
        SUFLOAT.mul (SUFLOAT.div (SU_C_ARG (SUCOMPLEX.mul I data[i])) (SUFLOAT.num PI))
          (SUFLOAT.num PI) = SU_C_ARG (SUCOMPLEX.mul I data[i]) ∧
        (SUCOMPLEX.isFinite data[i] →
          (SU_C_ARG (SUCOMPLEX.mul I data[i])).isFinite ∧ (SU_C_ARG data[i]).isFinite ∧
          (((SU_C_ARG (SUCOMPLEX.mul I data[i])).toReal : ℝ) : Real.Angle) =
            (((SU_C_ARG data[i]).toReal : ℝ) : Real.Angle) + ((PI / 2 : ℝ) : Real.Angle)) := by
  obtain ⟨u, hu, h1, h2, _⟩ := feed_argument env s data hmode hs hflag
  refine ⟨u, data.map argScalar, hu, h1, h2, by simp, ?_⟩
  intro i h hne
  refine ⟨?_, ?_, ?_⟩
  · simp [List.getElem?_map, List.getElem?_eq_getElem h, argScalar]
  · exact argScalar_mul_pi data[i]
  · intro hfin
    obtain ⟨⟨m1, m2⟩, _⟩ := mulI_finite data[i] hfin
    exact ⟨(SUFLOAT.atan2_finite _ _ m2 m1).1, (SUFLOAT.atan2_finite _ _ hfin.2 hfin.1).1,
      arg_mulI_coe_angle data[i] hfin hne⟩

/-- C1, witness: an armed ARGUMENT-mode inspector fed the batch `[1, I]`. -/
theorem C1_witness :
    ∃ u batch, feed (sampleEnv ⟨10, 0⟩) (armedState DecisionMode.ARGUMENT 9600) [1, I] = some u ∧
      u.dataSaver =
        (if (armedState DecisionMode.ARGUMENT 9600).recording = true then
          (armedState DecisionMode.ARGUMENT 9600).dataSaver.map (fun d => d.write batch)
         else (armedState DecisionMode.ARGUMENT 9600).dataSaver) ∧
      u.socketForwarder =
        (if (armedState DecisionMode.ARGUMENT 9600).forwarding = true then
          (armedState DecisionMode.ARGUMENT 9600).socketForwarder.map (fun f => f.write batch)
         else (armedState DecisionMode.ARGUMENT 9600).socketForwarder) ∧
      batch.length = ([1, I] : List SUCOMPLEX).length ∧
      ∀ (i : Nat) (h : i < ([1, I] : List SUCOMPLEX).length),
        SUCOMPLEX.neZero ([1, I] : List SUCOMPLEX)[i] →
        batch[i]? = some (SUCOMPLEX.ofFloat
          (SUFLOAT.div (SU_C_ARG (SUCOMPLEX.mul I ([1, I] : List SUCOMPLEX)[i]))
            (SUFLOAT.num PI))) ∧
        SUFLOAT.mul
          (SUFLOAT.div (SU_C_ARG (SUCOMPLEX.mul I ([1, I] : List SUCOMPLEX)[i]))
            (SUFLOAT.num PI))
          (SUFLOAT.num PI) = SU_C_ARG (SUCOMPLEX.mul I ([1, I] : List SUCOMPLEX)[i]) ∧
        (SUCOMPLEX.isFinite ([1, I] : List SUCOMPLEX)[i] →
          (SU_C_ARG (SUCOMPLEX.mul I ([1, I] : List SUCOMPLEX)[i])).isFinite ∧
          (SU_C_ARG ([1, I] : List SUCOMPLEX)[i]).isFinite ∧
          (((SU_C_ARG (SUCOMPLEX.mul I ([1, I] : List SUCOMPLEX)[i])).toReal : ℝ) :
              Real.Angle) =
            (((SU_C_ARG ([1, I] : List SUCOMPLEX)[i]).toReal : ℝ) : Real.Angle) +
              ((PI / 2 : ℝ) : Real.Angle)) :=
  C1_argument_persists_quarter_turned_phase (sampleEnv ⟨10, 0⟩)
    (armedState DecisionMode.ARGUMENT 9600) [1, I] (by decide)
    (armedState_sessionsPresent _ _) (Or.inl rfl)

/-- C1, counterexample: an armed ARGUMENT-mode inspector fed the single sample `1`, finite
and not zero, whose phase angle is 0: the value persisted is `1/2`, not `0 / π = 0`, and
multiplied by π it is `π/2`, not the angle of the sample. -/
theorem C1_counterexample_unit_sample :
    SUCOMPLEX.neZero 1 ∧ SUCOMPLEX.isFinite 1 ∧
    (armedState DecisionMode.ARGUMENT 9600).decider.mode ≠ DecisionMode.MODULUS ∧
    (armedState DecisionMode.ARGUMENT 9600).recording = true ∧
    ∃ u d, feed (sampleEnv ⟨10, 0⟩) (armedState DecisionMode.ARGUMENT 9600) [1] = some u ∧
      u.dataSaver = some d ∧
      d.written = [[⟨SUFLOAT.num (1 / 2), SUFLOAT.num 0⟩]] ∧
      SU_C_ARG 1 = SUFLOAT.num 0 ∧
      SUCOMPLEX.ofFloat (SUFLOAT.div (SU_C_ARG 1) (SUFLOAT.num PI)) =
        ⟨SUFLOAT.num 0, SUFLOAT.num 0⟩ ∧
      (⟨SUFLOAT.num (1 / 2), SUFLOAT.num 0⟩ : SUCOMPLEX) ≠ ⟨SUFLOAT.num 0, SUFLOAT.num 0⟩ ∧
      SUFLOAT.mul (SUFLOAT.num (1 / 2)) (SUFLOAT.num PI) = SUFLOAT.num (PI / 2) ∧
      SUFLOAT.num (PI / 2) ≠ SU_C_ARG 1 := by
  have hpi := Real.pi_ne_zero
  have hpos := Real.pi_pos
  have harg : SU_C_ARG 1 = SUFLOAT.num 0 := by
    show SUFLOAT.atan2 (SUFLOAT.num 0) (SUFLOAT.num ((1 : ℕ) : ℝ)) = SUFLOAT.num 0
    simp [SUFLOAT.atan2, SUFLOAT.isNaN, SUFLOAT.isInf, SUFLOAT.isZero, SUFLOAT.signBit,
      SUFLOAT.zero]
  have hdiv : SUFLOAT.div (SUFLOAT.num 0) (SUFLOAT.num PI) = SUFLOAT.num 0 := by
    have hneg : ¬ Real.pi < 0 := not_lt.mpr hpos.le
    simp [SUFLOAT.div, SUFLOAT.isNaN, SUFLOAT.isInf, SUFLOAT.isZero, SUFLOAT.toReal,
      SUFLOAT.zero, SUFLOAT.signBit, hpi, Xor', hneg]
  have hmul : SUFLOAT.mul (SUFLOAT.num (1 / 2)) (SUFLOAT.num PI) = SUFLOAT.num (PI / 2) := by
    have e : (1 / 2 : ℝ) * Real.pi = Real.pi / 2 := by ring
    have hne : Real.pi / 2 ≠ 0 := by positivity
    simp only [SUFLOAT.mul, SUFLOAT.isNaN, SUFLOAT.isInf, SUFLOAT.toReal, or_self, if_false,
      e, hne]
  have hhalf : Real.pi / 2 ≠ 0 := by positivity
  refine ⟨?_, ⟨trivial, trivial⟩, by decide, rfl, ?_⟩
  · intro h
    have h1 : ((1 : ℕ) : ℝ) = 0 := h.1
    norm_num at h1
  obtain ⟨u, hu, h1, _, _⟩ := feed_argument (sampleEnv ⟨10, 0⟩)
    (armedState DecisionMode.ARGUMENT 9600) [1] (by decide)
    (armedState_sessionsPresent _ _) (Or.inl rfl)
  refine ⟨u, sampleSaver.write [argScalar 1], hu, ?_, ?_, harg, ?_, ?_, hmul, ?_⟩
  · rw [h1]
    rfl
  · rw [argScalar_one]
    rfl
  · rw [harg, hdiv]
    rfl
  · intro h
    have h2 : SUFLOAT.num (1 / 2) = SUFLOAT.num 0 := congrArg SUCOMPLEX.re h
    have h3 : (1 / 2 : ℝ) = 0 := SUFLOAT.num.inj h2
    norm_num at h3
  · rw [harg]
    intro h
    exact hhalf (SUFLOAT.num.inj h)

/-- C2: a feed in MODULUS mode returns; the file session takes exactly one `write` of the
batch as given when recording is on and is untouched otherwise, the forwarder takes exactly
one `write` of the batch as given when forwarding is on and is untouched otherwise, and the
scratch buffer is not used. -/
theorem C2_modulus_writes_batch_verbatim (env : Env) (s : InspectorUI)
    (data : List SUCOMPLEX) (hmode : s.decider.mode = DecisionMode.MODULUS)
    (hs : sessionsPresent s) :
    ∃ u, feed env s data = some u ∧
      u.dataSaver =
        (if s.recording = true then s.dataSaver.map (fun d => d.write data) else s.dataSaver) ∧
      u.socketForwarder =
        (if s.forwarding = true then s.socketForwarder.map (fun f => f.write data)
         else s.socketForwarder) ∧
      (s.recording = false → s.forwarding = false →
        u.dataSaver = s.dataSaver ∧ u.socketForwarder = s.socketForwarder) := by
  obtain ⟨u, hu, h1, h2, _⟩ := feed_modulus env s data hmode hs
  refine ⟨u, hu, h1, h2, ?_⟩
  intro hr hf
  rw [h1, h2, hr, hf]
  exact ⟨rfl, rfl⟩

/-- C2, witness: an armed MODULUS-mode inspector fed the batch `[1, I]`. -/
theorem C2_witness :
    ∃ u, feed (sampleEnv ⟨10, 0⟩) (armedState DecisionMode.MODULUS 9600) [1, I] = some u ∧
      u.dataSaver =
        (if (armedState DecisionMode.MODULUS 9600).recording = true then
          (armedState DecisionMode.MODULUS 9600).dataSaver.map (fun d => d.write [1, I])
         else (armedState DecisionMode.MODULUS 9600).dataSaver) ∧
      u.socketForwarder =
        (if (armedState DecisionMode.MODULUS 9600).forwarding = true then
          (armedState DecisionMode.MODULUS 9600).socketForwarder.map (fun f => f.write [1, I])
         else (armedState DecisionMode.MODULUS 9600).socketForwarder) ∧
      ((armedState DecisionMode.MODULUS 9600).recording = false →
        (armedState DecisionMode.MODULUS 9600).forwarding = false →
        u.dataSaver = (armedState DecisionMode.MODULUS 9600).dataSaver ∧
          u.socketForwarder = (armedState DecisionMode.MODULUS 9600).socketForwarder) :=
  C2_modulus_writes_batch_verbatim (sampleEnv ⟨10, 0⟩) (armedState DecisionMode.MODULUS 9600)
    [1, I] rfl (armedState_sessionsPresent _ _)

/-- C3 (as amended): in a feed outside MODULUS mode with recording or forwarding on, the batch
handed to the writers has `size` elements, each with a zero imaginary part; the element
computed from a sample whose two components are finite is finite with a value in `[-1, 1]`,
and the element computed from a sample with a NaN component is NaN. -/
theorem C3_argument_batch_finite_samples_in_unit_interval (env : Env) (s : InspectorUI)
    (data : List SUCOMPLEX) (hmode : s.decider.mode ≠ DecisionMode.MODULUS)
    (hs : sessionsPresent s) (hflag : s.recording = true ∨ s.forwarding = true) :
    ∃ u batch, feed env s data = some u ∧
      u.dataSaver =
        (if s.recording = true then s.dataSaver.map (fun d => d.write batch)
         else s.dataSaver) ∧
      u.socketForwarder =
        (if s.forwarding = true then s.socketForwarder.map (fun f => f.write batch)
         else s.socketForwarder) ∧
      batch.length = data.length ∧
      ∀ (i : Nat) (h : i < data.length), ∃ z, batch[i]? = some z ∧
        z.im = SUFLOAT.num 0 ∧
        (SUCOMPLEX.isFinite data[i] →
          z.re.isFinite ∧ -1 ≤ z.re.toReal ∧ z.re.toReal ≤ 1) ∧
        ((data[i]).re.isNaN ∨ (data[i]).im.isNaN → z.re.isNaN) := by
  obtain ⟨u, hu, h1, h2, _⟩ := feed_argument env s data hmode hs hflag
  refine ⟨u, data.map argScalar, hu, h1, h2, by simp, ?_⟩
  intro i h
  refine ⟨argScalar data[i], ?_, rfl, ?_, ?_⟩
  · simp [List.getElem?_map, List.getElem?_eq_getElem h]
  · intro hfin
    exact (argScalar_finite data[i] hfin).2
  · intro hnan
    rw [argScalar_nan data[i] hnan]
    trivial

/-- C3, witness: an armed ARGUMENT-mode inspector fed the batch `[1, I]`. -/
theorem C3_witness :
    ∃ u batch, feed (sampleEnv ⟨10, 0⟩) (armedState DecisionMode.ARGUMENT 9600) [1, I] = some u ∧
      u.dataSaver =
        (if (armedState DecisionMode.ARGUMENT 9600).recording = true then
          (armedState DecisionMode.ARGUMENT 9600).dataSaver.map (fun d => d.write batch)
         else (armedState DecisionMode.ARGUMENT 9600).dataSaver) ∧
      u.socketForwarder =
        (if (armedState DecisionMode.ARGUMENT 9600).forwarding = true then
          (armedState DecisionMode.ARGUMENT 9600).socketForwarder.map (fun f => f.write batch)
         else (armedState DecisionMode.ARGUMENT 9600).socketForwarder) ∧
      batch.length = ([1, I] : List SUCOMPLEX).length ∧
      ∀ (i : Nat) (h : i < ([1, I] : List SUCOMPLEX).length), ∃ z, batch[i]? = some z ∧
        z.im = SUFLOAT.num 0 ∧
        (SUCOMPLEX.isFinite ([1, I] : List SUCOMPLEX)[i] →
          z.re.isFinite ∧ -1 ≤ z.re.toReal ∧ z.re.toReal ≤ 1) ∧
        ((([1, I] : List SUCOMPLEX)[i]).re.isNaN ∨ (([1, I] : List SUCOMPLEX)[i]).im.isNaN →
          z.re.isNaN) :=
  C3_argument_batch_finite_samples_in_unit_interval (sampleEnv ⟨10, 0⟩)
    (armedState DecisionMode.ARGUMENT 9600) [1, I] (by decide)
    (armedState_sessionsPresent _ _) (Or.inl rfl)

/-- C3, counterexample: an armed ARGUMENT-mode inspector fed the batch of the two samples
`NaN + 0i` and `+inf + 0i`: both elements handed to the file writer are NaN, which is not a
value of `[-1, 1]`. -/
theorem C3_counterexample_nan_and_infinite_samples :
    (armedState DecisionMode.ARGUMENT 9600).decider.mode ≠ DecisionMode.MODULUS ∧
    (armedState DecisionMode.ARGUMENT 9600).recording = true ∧
    ∃ u d, feed (sampleEnv ⟨10, 0⟩) (armedState DecisionMode.ARGUMENT 9600)
        [⟨SUFLOAT.nan, SUFLOAT.num 0⟩, ⟨SUFLOAT.posInf, SUFLOAT.num 0⟩] = some u ∧
      u.dataSaver = some d ∧
      d.written = [[⟨SUFLOAT.nan, SUFLOAT.num 0⟩, ⟨SUFLOAT.nan, SUFLOAT.num 0⟩]] ∧
      SUFLOAT.nan.isNaN ∧ ¬ SUFLOAT.nan.isFinite := by
  refine ⟨by decide, rfl, ?_⟩
  obtain ⟨u, hu, h1, _, _⟩ := feed_argument (sampleEnv ⟨10, 0⟩)
    (armedState DecisionMode.ARGUMENT 9600)
    [⟨SUFLOAT.nan, SUFLOAT.num 0⟩, ⟨SUFLOAT.posInf, SUFLOAT.num 0⟩] (by decide)
    (armedState_sessionsPresent _ _) (Or.inl rfl)
  refine ⟨u, sampleSaver.write [argScalar ⟨SUFLOAT.nan, SUFLOAT.num 0⟩,
    argScalar ⟨SUFLOAT.posInf, SUFLOAT.num 0⟩], hu, ?_, ?_, trivial, fun h => h⟩
  · rw [h1]
    rfl
  · rw [argScalar_nan_sample, argScalar_inf_sample]
    rfl

/-- C4 (failing input): with estimating on, a last update at 10 s + 0 µs and a clock reading
of 10 s + 50000 µs (50 ms later), `feed` refreshes the SNR model and label and advances
`last_estimator_update`, because the difference is taken as last minus now. -/
theorem C4_refresh_after_50ms :
    (feed (sampleEnv ⟨10, 50000⟩)
        { sampleState DecisionMode.MODULUS 9600 with estimating := true } []).map
      (fun u => (u.ui.histogramSNRModel, u.ui.snrLabel, u.last_estimator_update)) =
      some (some 1, some 1, ⟨10, 50000⟩) ∧
    timersub ⟨10, 0⟩ ⟨10, 50000⟩ = ⟨-1, 950000⟩ := by
  constructor
  · rfl
  · decide

/-- C5 (as amended): with a file session armed and the record toggle still on,
`onToggleRecord` keeps the session object, the sink and `recordingRate` and creates no second
session, but clears the recording flag and the record toggle, so the guarded `write` of
`feed` is skipped afterwards; `onToggleNetForward` does the same with the forwarder, the
forwarding flag, the forward toggle and the preparing indicator. -/
theorem C5_rearm_keeps_session_clears_flag (env : Env) (s : InspectorUI) :
    (∀ d, s.dataSaver = some d → s.recording = true → s.saverUI.recordState = true →
      onToggleRecord env s =
          some { s with recording := false,
                        saverUI := { s.saverUI with recordState := false } } ∧
        ∀ t, onToggleRecord env s = some t →
          t.dataSaver = some d ∧ t.sink = s.sink ∧ t.recordingRate = s.recordingRate ∧
          t.nextObj = s.nextObj ∧ t.recording = false ∧ t.saverUI.recordState = false ∧
          ∀ batch, writeSaver t batch = some t) ∧
    (∀ f, s.socketForwarder = some f → s.forwarding = true →
      s.netForwarderUI.forwardState = true →
      onToggleNetForward s =
          { s with forwarding := false,
                   netForwarderUI :=
                     { s.netForwarderUI with preparing := false, forwardState := false } } ∧
        (onToggleNetForward s).socketForwarder = some f ∧
        (onToggleNetForward s).recordingRate = s.recordingRate ∧
        (onToggleNetForward s).nextObj = s.nextObj ∧
        (onToggleNetForward s).forwarding = false ∧
        (onToggleNetForward s).netForwarderUI.forwardState = false ∧
        ∀ batch, writeForwarder (onToggleNetForward s) batch = some (onToggleNetForward s)) := by
  constructor
  · intro d hd _ htog
    have h : onToggleRecord env s =
        some { s with recording := false,
                      saverUI := { s.saverUI with recordState := false } } := by
      simp [onToggleRecord, installDataSaver, htog, hd]
    refine ⟨h, ?_⟩
    intro t ht
    rw [h] at ht
    cases ht
    refine ⟨hd, rfl, rfl, rfl, rfl, rfl, ?_⟩
    intro batch
    simp [writeSaver]
  · intro f hf _ htog
    have h : onToggleNetForward s =
        { s with forwarding := false,
                 netForwarderUI :=
                   { s.netForwarderUI with preparing := false, forwardState := false } } := by
      simp [onToggleNetForward, installNetForwarder, htog, hf]
    rw [h]
    refine ⟨rfl, hf, rfl, rfl, rfl, rfl, ?_⟩
    intro batch
    simp [writeForwarder]

/-- C5, witness: the armed sample inspector, both toggles still on. -/
theorem C5_witness :
    (onToggleRecord (sampleEnv ⟨10, 0⟩) (armedState DecisionMode.MODULUS 9600) =
        some { armedState DecisionMode.MODULUS 9600 with
               recording := false
               saverUI :=
                 { (armedState DecisionMode.MODULUS 9600).saverUI with recordState := false } }) ∧
    (onToggleNetForward (armedState DecisionMode.MODULUS 9600)).socketForwarder =
      some sampleForwarder :=
  ⟨((C5_rearm_keeps_session_clears_flag (sampleEnv ⟨10, 0⟩)
      (armedState DecisionMode.MODULUS 9600)).1 sampleSaver rfl rfl rfl).1,
   ((C5_rearm_keeps_session_clears_flag (sampleEnv ⟨10, 0⟩)
      (armedState DecisionMode.MODULUS 9600)).2 sampleForwarder rfl rfl rfl).2.1⟩

/-- C5, counterexample: on the armed sample inspector (session installed, recording and
forwarding true, both toggles on) `onToggleRecord` and `onToggleNetForward` turn the
recording and the forwarding flag off. -/
theorem C5_counterexample_rearm_clears_flags :
    (armedState DecisionMode.MODULUS 9600).dataSaver.isSome = true ∧
    (armedState DecisionMode.MODULUS 9600).recording = true ∧
    (armedState DecisionMode.MODULUS 9600).saverUI.recordState = true ∧
    (onToggleRecord (sampleEnv ⟨10, 0⟩) (armedState DecisionMode.MODULUS 9600)).map
      (fun t => t.recording) = some false ∧
    (armedState DecisionMode.MODULUS 9600).socketForwarder.isSome = true ∧
    (armedState DecisionMode.MODULUS 9600).forwarding = true ∧
    (armedState DecisionMode.MODULUS 9600).netForwarderUI.forwardState = true ∧
    (onToggleNetForward (armedState DecisionMode.MODULUS 9600)).forwarding = false := by
  refine ⟨rfl, rfl, rfl, rfl, rfl, rfl, rfl, rfl⟩

/-- C6: with a file session installed `installDataSaver` returns false and leaves the whole
state as it was (no sink opened, no saver constructed, `dataSaver`, `sink`, `recordingRate`
unchanged); with a forwarder installed `installNetForwarder` does likewise; and either
function constructs a session object only when its slot was empty. -/
theorem C6_install_refused_when_installed (env : Env) (s : InspectorUI) :
    (s.dataSaver ≠ none → installDataSaver env s = some (false, s)) ∧
    (s.socketForwarder ≠ none → installNetForwarder s = (false, s)) ∧
    (∀ b t, installDataSaver env s = some (b, t) → t.nextObj ≠ s.nextObj →
      s.dataSaver = none) ∧
    ((installNetForwarder s).2.nextObj ≠ s.nextObj → s.socketForwarder = none) := by
  refine ⟨?_, ?_, ?_, ?_⟩
  · intro h
    cases hd : s.dataSaver with
    | none => exact absurd hd h
    | some d => simp [installDataSaver, hd]
  · intro h
    cases hf : s.socketForwarder with
    | none => exact absurd hf h
    | some f => simp [installNetForwarder, hf]
  · intro b t hbt hne
    cases hd : s.dataSaver with
    | none => rfl
    | some d =>
      simp [installDataSaver, hd] at hbt
      exact absurd (by rw [← hbt.2]) hne
  · intro hne
    cases hf : s.socketForwarder with
    | none => rfl
    | some f =>
      simp [installNetForwarder, hf] at hne

/-- C6, witness: the armed sample inspector. -/
theorem C6_witness :
    installDataSaver (sampleEnv ⟨10, 0⟩) (armedState DecisionMode.MODULUS 9600) =
        some (false, armedState DecisionMode.MODULUS 9600) ∧
    installNetForwarder (armedState DecisionMode.MODULUS 9600) =
        (false, armedState DecisionMode.MODULUS 9600) :=
  ⟨(C6_install_refused_when_installed (sampleEnv ⟨10, 0⟩)
      (armedState DecisionMode.MODULUS 9600)).1 (by simp [armedState]),
   (C6_install_refused_when_installed (sampleEnv ⟨10, 0⟩)
      (armedState DecisionMode.MODULUS 9600)).2.1 (by simp [armedState])⟩

/-- C7 (as amended): at a configured baud rate of zero the toggle handlers do not reject
arming, they never consult the rate: with no forwarder installed and the forward toggle on,
`onToggleNetForward` installs a fresh forwarder bound to sample rate 0 and sets forwarding
true; with no saver installed, the record toggle on, a file name found and the sink opening,
`onToggleRecord` installs a fresh saver bound to sample rate 0 and sets recording true. The
zero rate is acted on by `onInspectorControlChanged`, which always returns, disables the
saver and forwarder panels and, when `recordingRate` was non-zero, clears recording and
forwarding and removes the active sessions. -/
theorem C7_zero_rate_not_rejected_at_arm_time (env : Env) (s : InspectorUI)
    (hz : getBaudRate s = 0) :
    (s.socketForwarder = none → s.netForwarderUI.forwardState = true →
      (onToggleNetForward s).forwarding = true ∧
      ∃ f, (onToggleNetForward s).socketForwarder = some f ∧ f.objId = s.nextObj ∧
        f.sampleRate = some 0) ∧
    (∀ path, s.dataSaver = none → s.saverUI.recordState = true →
      captureFileName env s = some path → env.sinkOpen path = true →
      ∃ t d, onToggleRecord env s = some t ∧ t.recording = true ∧ t.dataSaver = some d ∧
        d.objId = s.nextObj ∧ d.sampleRate = some 0) ∧
    (∃ t, onInspectorControlChanged env s = some t ∧ t.saverUI.enabled = false ∧
      t.netForwarderUI.enabled = false ∧
      (s.recordingRate ≠ 0 → t.recording = false ∧ t.forwarding = false ∧
        (s.recording = true → t.dataSaver = none) ∧
        (s.forwarding = true → t.socketForwarder = none))) := by
  refine ⟨?_, ?_, ?_⟩
  · intro hf htog
    simp [onToggleNetForward, installNetForwarder, hf, htog, hz]
  · intro path hd htog hp ho
    unfold onToggleRecord
    simp only [htog, if_true, installDataSaver_empty env s path hd hp, ho, Option.map_some']
    exact ⟨_, _, rfl, rfl, rfl, rfl, by rw [hz]⟩
  · obtain ⟨s1, h1, k1, k2, k3⟩ := controlChangedRecord_zero_total env s
    have h1' : controlChangedRecord env (getBaudRate s) s.recordingRate s = some s1 := by
      rw [hz]
      exact h1
    obtain ⟨t, ht, r1, r2, r3, r4, _, _, _, _, r9, r10, _, _⟩ :=
      onInspectorControlChanged_of_record env s s1 h1'
    rw [hz] at r1 r2 r3 r4 r9 r10
    obtain ⟨c1, c2, _, _, _, _, _, _⟩ := controlChangedForward_frame 0 s.recordingRate s1
    refine ⟨t, ht, by simpa using r9, by simpa using r10, ?_⟩
    intro ho
    obtain ⟨z1, z2⟩ := controlChangedForward_zero s.recordingRate s1 ho
    obtain ⟨k3a, k3b⟩ := k3 ho
    refine ⟨?_, ?_, ?_, ?_⟩
    · rw [r1, c1, k3a]
    · rw [r2, z1]
    · intro hr
      rw [r3, c2, k3b hr]
    · intro hf
      rw [r4]
      exact z2 (by rw [k1]; exact hf)

/-- C7, witness: the sample inspector at baud rate 0 with both toggles pressed. -/
theorem C7_witness :
    getBaudRate (togglesOnState DecisionMode.MODULUS 0) = 0 ∧
    (onToggleNetForward (togglesOnState DecisionMode.MODULUS 0)).forwarding = true ∧
    (∃ t d, onToggleRecord (sampleEnv ⟨10, 0⟩) (togglesOnState DecisionMode.MODULUS 0) = some t ∧
      t.recording = true ∧ t.dataSaver = some d ∧
      d.objId = (togglesOnState DecisionMode.MODULUS 0).nextObj ∧ d.sampleRate = some 0) :=
  ⟨by decide,
   ((C7_zero_rate_not_rejected_at_arm_time (sampleEnv ⟨10, 0⟩)
      (togglesOnState DecisionMode.MODULUS 0) (by decide)).1 rfl rfl).1,
   (C7_zero_rate_not_rejected_at_arm_time (sampleEnv ⟨10, 0⟩)
      (togglesOnState DecisionMode.MODULUS 0) (by decide)).2.1
      "/tmp/channel-capture-FM-0-baud-0001.raw" rfl rfl (by decide) rfl⟩

/-- C7, counterexample: on the sample inspector with `clock.baud` 0, no session installed and
both toggles on, `onToggleRecord` creates a file session and sets recording true, and
`onToggleNetForward` creates a forwarder and sets forwarding true. -/
theorem C7_counterexample_zero_rate_arms :
    getBaudRate (togglesOnState DecisionMode.MODULUS 0) = 0 ∧
    (togglesOnState DecisionMode.MODULUS 0).dataSaver.isSome = false ∧
    (togglesOnState DecisionMode.MODULUS 0).socketForwarder.isSome = false ∧
    (togglesOnState DecisionMode.MODULUS 0).saverUI.recordState = true ∧
    (togglesOnState DecisionMode.MODULUS 0).netForwarderUI.forwardState = true ∧
    (onToggleRecord (sampleEnv ⟨10, 0⟩) (togglesOnState DecisionMode.MODULUS 0)).map
      (fun t => (t.recording, t.dataSaver.isSome)) = some (true, true) ∧
    (onToggleNetForward (togglesOnState DecisionMode.MODULUS 0)).forwarding = true ∧
    (onToggleNetForward (togglesOnState DecisionMode.MODULUS 0)).socketForwarder.isSome =
      true := by
  refine ⟨by decide, rfl, rfl, rfl, rfl, rfl, rfl, rfl⟩

/-- C8: with a file session installed, `onSaveError` and `onSaveSwamped` leave recording
false, `dataSaver` and `sink` null and the record toggle off, and construct no new session;
with a forwarder installed, `onNetError` and `onNetSwamped` leave forwarding false,
`socketForwarder` null and the forward toggle off, and construct no new session; with the
session pointer already null each handler returns the state as it was. -/
theorem C8_failure_handlers_disarm (s : InspectorUI) :
    (s.dataSaver ≠ none →
      ((onSaveError s).recording = false ∧ (onSaveError s).dataSaver = none ∧
        (onSaveError s).sink = none ∧ (onSaveError s).saverUI.recordState = false ∧
        (onSaveError s).nextObj = s.nextObj ∧ (onSaveError s).nextSink = s.nextSink) ∧
      ((onSaveSwamped s).recording = false ∧ (onSaveSwamped s).dataSaver = none ∧
        (onSaveSwamped s).sink = none ∧ (onSaveSwamped s).saverUI.recordState = false ∧
        (onSaveSwamped s).nextObj = s.nextObj ∧ (onSaveSwamped s).nextSink = s.nextSink)) ∧
    (s.socketForwarder ≠ none →
      ((onNetError s).forwarding = false ∧ (onNetError s).socketForwarder = none ∧
        (onNetError s).netForwarderUI.forwardState = false ∧
        (onNetError s).nextObj = s.nextObj) ∧
      ((onNetSwamped s).forwarding = false ∧ (onNetSwamped s).socketForwarder = none ∧
        (onNetSwamped s).netForwarderUI.forwardState = false ∧
        (onNetSwamped s).nextObj = s.nextObj)) ∧
    (s.dataSaver = none → onSaveError s = s ∧ onSaveSwamped s = s) ∧
    (s.socketForwarder = none → onNetError s = s ∧ onNetSwamped s = s) := by
  refine ⟨?_, ?_, ?_, ?_⟩
  · intro h
    cases hd : s.dataSaver with
    | none => exact absurd hd h
    | some d =>
      cases hk : s.sink <;>
        simp [onSaveError, onSaveSwamped, uninstallDataSaver, hd, hk]
  · intro h
    cases hf : s.socketForwarder with
    | none => exact absurd hf h
    | some f => simp [onNetError, onNetSwamped, uninstallNetForwarder, hf]
  · intro h
    simp [onSaveError, onSaveSwamped, h]
  · intro h
    simp [onNetError, onNetSwamped, h]

/-- C8, witness: the armed sample inspector, and the idle one for the null case. -/
theorem C8_witness :
    ((onSaveError (armedState DecisionMode.MODULUS 9600)).recording = false ∧
      (onSaveError (armedState DecisionMode.MODULUS 9600)).dataSaver = none) ∧
    ((onNetSwamped (armedState DecisionMode.MODULUS 9600)).forwarding = false ∧
      (onNetSwamped (armedState DecisionMode.MODULUS 9600)).socketForwarder = none) ∧
    onSaveSwamped (sampleState DecisionMode.MODULUS 9600) =
      sampleState DecisionMode.MODULUS 9600 ∧
    onNetError (sampleState DecisionMode.MODULUS 9600) =
      sampleState DecisionMode.MODULUS 9600 :=
  ⟨⟨((C8_failure_handlers_disarm (armedState DecisionMode.MODULUS 9600)).1
        (by simp [armedState])).1.1,
    ((C8_failure_handlers_disarm (armedState DecisionMode.MODULUS 9600)).1
        (by simp [armedState])).1.2.1⟩,
   ⟨((C8_failure_handlers_disarm (armedState DecisionMode.MODULUS 9600)).2.1
        (by simp [armedState])).2.1,
    ((C8_failure_handlers_disarm (armedState DecisionMode.MODULUS 9600)).2.1
        (by simp [armedState])).2.2.1⟩,
   ((C8_failure_handlers_disarm (sampleState DecisionMode.MODULUS 9600)).2.2.1 rfl).2,
   ((C8_failure_handlers_disarm (sampleState DecisionMode.MODULUS 9600)).2.2.2 rfl).1⟩

/-- C9 (as amended): with recording on and `newRate = getBaudRate()`,
`onInspectorControlChanged` returns and: if `newRate` equals `recordingRate` the file
session, the sink, `recordingRate` and the recording flag are unchanged; if `newRate` is 0
and differs from `recordingRate` the session is queued for deletion, its sink closed,
`dataSaver` and `sink` become null and recording false; if `newRate` is non-zero and differs
from `recordingRate` (and a capture file name is found) the old session is queued for
deletion and its sink closed, and then, when the new sink opens, a fresh session with no
batches, sample rate `newRate` and the new sink is installed, `recordingRate` is `newRate`
and recording is true, while when the open fails no session is installed and recording is
false. -/
theorem C9_rate_change_reinstalls_file_session (env : Env) (s : InspectorUI)
    (hrec : s.recording = true) :
    (getBaudRate s = s.recordingRate →
      ∃ t, onInspectorControlChanged env s = some t ∧ t.dataSaver = s.dataSaver ∧
        t.sink = s.sink ∧ t.recordingRate = s.recordingRate ∧ t.recording = true) ∧
    (getBaudRate s = 0 → s.recordingRate ≠ 0 →
      ∃ t, onInspectorControlChanged env s = some t ∧ t.dataSaver = none ∧ t.sink = none ∧
        t.recording = false ∧
        (∀ d, s.dataSaver = some d → d ∈ t.saversToDelete) ∧
        (∀ h, s.sink = some h → h ∈ t.sinkCloses)) ∧
    (∀ path, getBaudRate s ≠ 0 → getBaudRate s ≠ s.recordingRate →
      captureFileName env s = some path →
      ∃ t, onInspectorControlChanged env s = some t ∧
        (∀ d, s.dataSaver = some d → d ∈ t.saversToDelete) ∧
        (∀ h, s.sink = some h → h ∈ t.sinkCloses) ∧
        (env.sinkOpen path = true →
          t.dataSaver = some
            { objId := s.nextObj
              writer := { sink := some s.nextSink, lastError := "" }
              sampleRate := some (getBaudRate s)
              connected := true
              written := [] } ∧
          t.sink = some s.nextSink ∧ t.recordingRate = getBaudRate s ∧ t.recording = true) ∧
        (env.sinkOpen path = false → t.dataSaver = none ∧ t.recording = false)) := by
  refine ⟨?_, ?_, ?_⟩
  · intro heq
    have h1 : controlChangedRecord env (getBaudRate s) s.recordingRate s = some s := by
      rw [heq]
      exact controlChangedRecord_same env s _
    obtain ⟨t, ht, r1, _, r3, _, r5, r6, _, _, _, _, _, _⟩ :=
      onInspectorControlChanged_of_record env s s h1
    obtain ⟨c1, c2, c3, _, _, _, _, c8⟩ :=
      controlChangedForward_frame (getBaudRate s) s.recordingRate s
    exact ⟨t, ht, by rw [r3, c2], by rw [r5, c3], by rw [r6, c8 (Or.inl heq)],
      by rw [r1, c1, hrec]⟩
  · intro hz ho
    obtain ⟨s1, h1, k1, k2, k3, k4, k5⟩ :=
      controlChangedRecord_zero env s s.recordingRate ho hrec
    have h1' : controlChangedRecord env (getBaudRate s) s.recordingRate s = some s1 := by
      rw [hz]
      exact h1
    obtain ⟨t, ht, r1, _, r3, _, r5, _, r7, r8, _, _, _, _⟩ :=
      onInspectorControlChanged_of_record env s s1 h1'
    obtain ⟨c1, c2, c3, c4, c5, _, _, _⟩ :=
      controlChangedForward_frame (getBaudRate s) s.recordingRate s1
    refine ⟨t, ht, by rw [r3, c2, k2], by rw [r5, c3, k3], by rw [r1, c1, k1], ?_, ?_⟩
    · intro d hd
      rw [r7, c4]
      exact k4 d hd
    · intro h hh
      rw [r8, c5]
      exact k5 h hh
  · intro path hn hne hp
    obtain ⟨s1, h1, k1, k2, k3, k4⟩ :=
      controlChangedRecord_change env s (getBaudRate s) path hrec hn hne hp
    obtain ⟨t, ht, r1, _, r3, _, r5, r6, r7, r8, _, _, _, _⟩ :=
      onInspectorControlChanged_of_record env s s1 h1
    obtain ⟨c1, c2, c3, c4, c5, _, _, c8⟩ :=
      controlChangedForward_frame (getBaudRate s) s.recordingRate s1
    refine ⟨t, ht, ?_, ?_, ?_, ?_⟩
    · intro d hd
      rw [r7, c4]
      exact k1 d hd
    · intro h hh
      rw [r8, c5]
      exact k2 h hh
    · intro ho
      obtain ⟨m1, m2, m3, m4⟩ := k3 ho
      exact ⟨by rw [r3, c2, m4], by rw [r5, c3, m3],
        by rw [r6, c8 (Or.inl m2.symm), m2], by rw [r1, c1, m1]⟩
    · intro ho
      obtain ⟨m1, m2⟩ := k4 ho
      exact ⟨by rw [r3, c2, m2], by rw [r1, c1, m1]⟩

/-- C9, witness: the armed sample inspector, recording at 9600 baud, with `clock.baud` left
at 9600, dropped to 0 and changed to 4800. -/
theorem C9_witness :
    (∃ t, onInspectorControlChanged (sampleEnv ⟨10, 0⟩) (armedState DecisionMode.MODULUS 9600) =
        some t ∧ t.dataSaver = (armedState DecisionMode.MODULUS 9600).dataSaver ∧
      t.sink = (armedState DecisionMode.MODULUS 9600).sink ∧
      t.recordingRate = (armedState DecisionMode.MODULUS 9600).recordingRate ∧
      t.recording = true) ∧
    (∃ t, onInspectorControlChanged (sampleEnv ⟨10, 0⟩) (armedState DecisionMode.MODULUS 0) =
        some t ∧ t.dataSaver = none ∧ t.sink = none ∧ t.recording = false ∧
      (∀ d, (armedState DecisionMode.MODULUS 0).dataSaver = some d → d ∈ t.saversToDelete) ∧
      (∀ h, (armedState DecisionMode.MODULUS 0).sink = some h → h ∈ t.sinkCloses)) ∧
    (∃ t, onInspectorControlChanged (sampleEnv ⟨10, 0⟩) (armedState DecisionMode.MODULUS 4800) =
        some t ∧
      (∀ d, (armedState DecisionMode.MODULUS 4800).dataSaver = some d →
        d ∈ t.saversToDelete) ∧
      (∀ h, (armedState DecisionMode.MODULUS 4800).sink = some h → h ∈ t.sinkCloses) ∧
      ((sampleEnv ⟨10, 0⟩).sinkOpen "/tmp/channel-capture-FM-4800-baud-0001.raw" = true →
        t.dataSaver = some
          { objId := (armedState DecisionMode.MODULUS 4800).nextObj
            writer :=
              { sink := some (armedState DecisionMode.MODULUS 4800).nextSink, lastError := "" }
            sampleRate := some (getBaudRate (armedState DecisionMode.MODULUS 4800))
            connected := true
            written := [] } ∧
        t.sink = some (armedState DecisionMode.MODULUS 4800).nextSink ∧
        t.recordingRate = getBaudRate (armedState DecisionMode.MODULUS 4800) ∧
        t.recording = true) ∧
      ((sampleEnv ⟨10, 0⟩).sinkOpen "/tmp/channel-capture-FM-4800-baud-0001.raw" = false →
        t.dataSaver = none ∧ t.recording = false)) :=
  ⟨(C9_rate_change_reinstalls_file_session (sampleEnv ⟨10, 0⟩)
      (armedState DecisionMode.MODULUS 9600) rfl).1 (by decide),
   (C9_rate_change_reinstalls_file_session (sampleEnv ⟨10, 0⟩)
      (armedState DecisionMode.MODULUS 0) rfl).2.1 (by decide) (by decide),
   (C9_rate_change_reinstalls_file_session (sampleEnv ⟨10, 0⟩)
      (armedState DecisionMode.MODULUS 4800) rfl).2.2
      "/tmp/channel-capture-FM-4800-baud-0001.raw" (by decide) (by decide) (by decide)⟩

/-- C9, counterexample: recording at `recordingRate` 0 with `clock.baud` 0, so that
`newRate` is 0 and equals `recordingRate`: `onInspectorControlChanged` keeps the session and
leaves recording true, whereas the claim's clause for `newRate = 0` has the session destroyed
and recording false. -/
theorem C9_counterexample_zero_equals_recording_rate :
    ({ armedState DecisionMode.MODULUS 0 with recordingRate := 0 } : InspectorUI).recording =
      true ∧
    getBaudRate { armedState DecisionMode.MODULUS 0 with recordingRate := 0 } = 0 ∧
    (onInspectorControlChanged (sampleEnv ⟨10, 0⟩)
        { armedState DecisionMode.MODULUS 0 with recordingRate := 0 }).map
      (fun t => (t.recording, t.dataSaver.isSome, t.saversToDelete.length)) =
      some (true, true, 0) := by
  refine ⟨rfl, by decide, rfl⟩

/-- C10: `setBps` preserves the predicate that the cached bps, the decider bps, the
estimator bps, the symbol view's bits per symbol and the constellation and transition order
hints agree; from a state where they agree, after `setBps b` all of them equal `b`; whenever
`b` differs from the cached value all of them equal `b` afterwards; and when `b` equals the
cached value `setBps b` returns the state as it was. -/
theorem C10_setBps_propagates (s : InspectorUI) (b : Nat) :
    (bpsInSync s → bpsInSync (setBps b s)) ∧
    (bpsInSync s ∨ b ≠ s.bps →
      (setBps b s).bps = b ∧ (setBps b s).decider.bps = b ∧ (setBps b s).estimator.bps = b ∧
      (setBps b s).ui.symViewBitsPerSymbol = b ∧ (setBps b s).ui.constellationOrderHint = b ∧
      (setBps b s).ui.transitionOrderHint = b) ∧
    (b = s.bps → setBps b s = s) := by
  by_cases hb : s.bps = b
  · refine ⟨?_, ?_, ?_⟩
    · intro h
      simpa [setBps, hb] using h
    · intro h
      rcases h with h | h
      · obtain ⟨h1, h2, h3, h4, h5⟩ := h
        simp [setBps, hb]
        rw [← hb]
        exact ⟨h1, h2, h3, h4, h5⟩
      · exact absurd hb.symm h
    · intro _
      simp [setBps, hb]
  · refine ⟨?_, ?_, ?_⟩
    · intro _
      simp [setBps, hb, bpsInSync]
    · intro _
      simp [setBps, hb]
    · intro h
      exact absurd h.symm hb

/-- C10, witness: the sample inspector, whose widths all equal 1, set to 2 bits. -/
theorem C10_witness :
    bpsInSync (setBps 2 (sampleState DecisionMode.MODULUS 9600)) ∧
    (setBps 2 (sampleState DecisionMode.MODULUS 9600)).decider.bps = 2 ∧
    setBps 1 (sampleState DecisionMode.MODULUS 9600) = sampleState DecisionMode.MODULUS 9600 :=
  ⟨(C10_setBps_propagates (sampleState DecisionMode.MODULUS 9600) 2).1
      ⟨rfl, rfl, rfl, rfl, rfl⟩,
   ((C10_setBps_propagates (sampleState DecisionMode.MODULUS 9600) 2).2.1
      (Or.inl ⟨rfl, rfl, rfl, rfl, rfl⟩)).2.1,
   (C10_setBps_propagates (sampleState DecisionMode.MODULUS 9600) 1).2.2 rfl⟩

/-- C11: a feed (on a state whose raised flags have their session) returns, and the decider
is run on the batch exactly when demodulating is on and the decider's bps is positive: then
the decider holds the symbols it decided for this batch, one per sample, and the symbol view
and the transition view each receive exactly those symbols; otherwise the decider, the
symbol view and the transition view are as before. -/
theorem C11_decider_runs_iff_demodulating_and_bps (env : Env) (s : InspectorUI)
    (data : List SUCOMPLEX) (hs : sessionsPresent s) :
    ∃ u, feed env s data = some u ∧
      (s.demodulating = true ∧ 0 < s.decider.bps →
        u.decider = s.decider.feed env data ∧
        u.decider.symbols.length = data.length ∧
        u.ui.symViewFed = s.ui.symViewFed ++ [u.decider.symbols] ∧
        u.ui.transitionFed = s.ui.transitionFed ++ [u.decider.symbols]) ∧
      (¬ (s.demodulating = true ∧ 0 < s.decider.bps) →
        u.decider = s.decider ∧ u.ui.symViewFed = s.ui.symViewFed ∧
        u.ui.transitionFed = s.ui.transitionFed) := by
  obtain ⟨u, hu⟩ := feed_returns env s data hs
  obtain ⟨c1, c2, _, _, _, _⟩ := feedCapture_frame _ u data hu
  obtain ⟨d1, d2⟩ := feedStages_decider env s data
  refine ⟨u, hu, ?_, ?_⟩
  · intro hc
    obtain ⟨k1, k2, k3⟩ := d1 hc
    rw [c1, c2, k1]
    exact ⟨rfl, by simp [Decider.feed], k2, k3⟩
  · intro hc
    obtain ⟨k1, k2, k3⟩ := d2 hc
    rw [c1, c2]
    exact ⟨k1, k2, k3⟩

/-- C11, witness: the armed sample inspector, demodulating with 1 bit per symbol, fed
`[1, I]`. -/
theorem C11_witness :
    ∃ u, feed (sampleEnv ⟨10, 0⟩)
        { armedState DecisionMode.MODULUS 9600 with demodulating := true } [1, I] = some u ∧
      u.decider.symbols.length = 2 ∧
      u.ui.symViewFed = [u.decider.symbols] ∧ u.ui.transitionFed = [u.decider.symbols] := by
  obtain ⟨u, hu, h1, _⟩ := C11_decider_runs_iff_demodulating_and_bps (sampleEnv ⟨10, 0⟩)
    { armedState DecisionMode.MODULUS 9600 with demodulating := true } [1, I]
    ⟨fun _ => rfl, fun _ => rfl⟩
  obtain ⟨_, k2, k3, k4⟩ := h1 ⟨rfl, by decide⟩
  exact ⟨u, hu, k2, k3, k4⟩

/-- C12: `FileDataWriter::close` returns true in every state; afterwards the sink is null
and `canWrite()` is false; a second `close` returns true, issues no further
`suscan_sink_close` and leaves the writer as the first one left it; and the first `close`
issues one `suscan_sink_close` on the held handle, or none when there is no handle. -/
theorem C12_close_idempotent (w : FileDataWriter) (closes : List Nat) :
    (w.close closes).1 = true ∧
    (w.close closes).2.1.sink = none ∧
    (w.close closes).2.1.canWrite = false ∧
    (w.close closes).2.1.close (w.close closes).2.2 =
      (true, (w.close closes).2.1, (w.close closes).2.2) ∧
    (w.close closes).2.2 = closes ++ w.sink.toList := by
  unfold FileDataWriter.close FileDataWriter.canWrite
  cases h : w.sink <;> simp [h]

/-- C13 (as amended): on an open sink `FileDataWriter::write` returns what the underlying
sink write returns; when that value is less than 1, `lastError` afterwards is
`write() failed: ` followed by the OS error string, and when it is at least 1 the writer is
unchanged. On a null sink `write` returns 0 and leaves `lastError` and the writer
unchanged. -/
theorem C13_write_delegates_and_records_error (w : FileDataWriter)
    (sinkWrite : Nat → List SUCOMPLEX → Int) (strerror : String) (data : List SUCOMPLEX) :
    (∀ h, w.sink = some h →
      (w.write sinkWrite strerror data).1 = sinkWrite h data ∧
      ((w.write sinkWrite strerror data).1 < 1 →
        (w.write sinkWrite strerror data).2.getError = "write() failed: " ++ strerror ∧
        (w.write sinkWrite strerror data).2.sink = w.sink) ∧
      (1 ≤ (w.write sinkWrite strerror data).1 →
        (w.write sinkWrite strerror data).2 = w)) ∧
    (w.sink = none → w.write sinkWrite strerror data = (0, w)) := by
  constructor
  · intro h hh
    by_cases hr : sinkWrite h data < 1
    · have hn : ¬ 1 ≤ sinkWrite h data := by omega
      simp [FileDataWriter.write, FileDataWriter.getError, hh, hr, hn]
    · have hp : 1 ≤ sinkWrite h data := by omega
      simp [FileDataWriter.write, FileDataWriter.getError, hh, hr, hp]
  · intro hn
    unfold FileDataWriter.write
    simp only [hn]

/-- C13, witness: a writer on sink 0 whose underlying write fails with -1, and a writer
without a sink. -/
theorem C13_witness :
    ((FileDataWriter.new (some 0)).write (fun _ _ => -1) "No space left on device" [1]).1 =
      -1 ∧
    ((FileDataWriter.new (some 0)).write (fun _ _ => -1) "No space left on device"
        [1]).2.getError = "write() failed: " ++ "No space left on device" ∧
    (FileDataWriter.new none).write (fun _ _ => 16) "Success" [1] =
      (0, FileDataWriter.new none) :=
  ⟨((C13_write_delegates_and_records_error (FileDataWriter.new (some 0)) (fun _ _ => -1)
      "No space left on device" [1]).1 0 rfl).1,
   (((C13_write_delegates_and_records_error (FileDataWriter.new (some 0)) (fun _ _ => -1)
      "No space left on device" [1]).1 0 rfl).2.1 (by decide)).1,
   (C13_write_delegates_and_records_error (FileDataWriter.new none) (fun _ _ => 16)
      "Success" [1]).2 rfl⟩

/-- C13, counterexample: a freshly constructed writer without a sink returns the failure
sentinel 0 and its `lastError` stays empty, not the `write() failed: ...` diagnosis. -/
theorem C13_counterexample_null_sink :
    ((FileDataWriter.new none).write (fun _ _ => 16) "Success" [1]).1 = 0 ∧
    ((FileDataWriter.new none).write (fun _ _ => 16) "Success" [1]).1 < 1 ∧
    ((FileDataWriter.new none).write (fun _ _ => 16) "Success" [1]).2.getError = "" ∧
    ((FileDataWriter.new none).write (fun _ _ => 16) "Success" [1]).2.getError ≠
      "write() failed: " ++ "Success" := by
  refine ⟨rfl, by decide, rfl, by decide⟩

/-- C14 (as amended): `getBps` returns a value of at least 1 that fits an `unsigned int`.
The selected value is that of the first present key in the order afc, fsk, ask, converted to
`unsigned int` (reduced modulo `2^32`); `getBps` returns 1 when no key is present or when
the converted value is zero, and the converted value otherwise; a selected value below
`2^32` that is not zero is returned as it is. -/
theorem C14_getBps_first_present_key_truncated (s : InspectorUI) :
    1 ≤ getBps s ∧ getBps s < 2 ^ 32 ∧
    (∀ v, (s.config.get "afc.bits-per-symbol" = some v ∨
        (s.config.get "afc.bits-per-symbol" = none ∧
          s.config.get "fsk.bits-per-symbol" = some v) ∨
        (s.config.get "afc.bits-per-symbol" = none ∧
          s.config.get "fsk.bits-per-symbol" = none ∧
          s.config.get "ask.bits-per-symbol" = some v)) →
      (v.getUint64 % 2 ^ 32 = 0 → getBps s = 1) ∧
      (v.getUint64 % 2 ^ 32 ≠ 0 → getBps s = v.getUint64 % 2 ^ 32) ∧
      (v.getUint64 < 2 ^ 32 → v.getUint64 ≠ 0 → getBps s = v.getUint64)) ∧
    (s.config.get "afc.bits-per-symbol" = none → s.config.get "fsk.bits-per-symbol" = none →
      s.config.get "ask.bits-per-symbol" = none → getBps s = 1) := by
  have hlt : ∀ n : Nat, n % 2 ^ 32 < 2 ^ 32 := fun n => Nat.mod_lt n (by norm_num)
  refine ⟨?_, ?_, ?_, ?_⟩
  · unfold getBps
    dsimp only
    split_ifs with h
    · exact le_refl 1
    · exact Nat.one_le_iff_ne_zero.mpr h
  · unfold getBps castUint64
    dsimp only
    split_ifs with h
    · norm_num
    · cases s.config.get "afc.bits-per-symbol" <;> cases s.config.get "fsk.bits-per-symbol" <;>
        cases s.config.get "ask.bits-per-symbol" <;> simp only [] <;>
        first | exact hlt _ | norm_num
  · intro v hv
    have key : getBps s =
        if v.getUint64 % 2 ^ 32 = 0 then 1 else v.getUint64 % 2 ^ 32 := by
      unfold getBps castUint64
      rcases hv with h | ⟨h1, h2⟩ | ⟨h1, h2, h3⟩
      · simp only [h]
      · simp only [h1, h2]
      · simp only [h1, h2, h3]
    refine ⟨?_, ?_, ?_⟩
    · intro h0
      rw [key, if_pos h0]
    · intro h0
      rw [key, if_neg h0]
    · intro hb h0
      rw [key, Nat.mod_eq_of_lt hb, if_neg h0]
  · intro h1 h2 h3
    unfold getBps
    simp only [h1, h2, h3]
    rfl

/-- C14, witness: only `fsk.bits-per-symbol` present, with value 2. -/
theorem C14_witness :
    1 ≤ getBps { sampleState DecisionMode.MODULUS 9600 with
                 config := bpsConfig none (some 2) none } ∧
    getBps { sampleState DecisionMode.MODULUS 9600 with
             config := bpsConfig none (some 2) none } = 2 :=
  ⟨(C14_getBps_first_present_key_truncated
      { sampleState DecisionMode.MODULUS 9600 with config := bpsConfig none (some 2) none }).1,
   ((C14_getBps_first_present_key_truncated
      { sampleState DecisionMode.MODULUS 9600 with
        config := bpsConfig none (some 2) none }).2.2.1
      { getFloat := 0, getUint64 := 2 } (Or.inr (Or.inl ⟨rfl, rfl⟩))).2.2
      (by decide) (by decide)⟩

/-- C14, counterexample: `afc.bits-per-symbol` is present with the non-zero value `2^32`;
`getBps` returns 1, not that value. -/
theorem C14_counterexample_value_two_pow_32 :
    ((bpsConfig (some 4294967296) none none).get "afc.bits-per-symbol").map
      (fun v => v.getUint64) = some 4294967296 ∧
    (4294967296 : Nat) ≠ 0 ∧
    getBps { sampleState DecisionMode.MODULUS 9600 with
             config := bpsConfig (some 4294967296) none none } = 1 := by
  refine ⟨rfl, by decide, by decide⟩

/-- C15: when some suffix `i` with `1 ≤ i < 2^32` (the values the `unsigned int` counter
takes before it wraps) has an unused path, `captureFileName` returns
`<savePath>/channel-capture-<class>-<baud>-baud-<NNNN>.raw`, a path that does not exist,
where `NNNN` is the smallest such suffix, every smaller suffix from 1 being in use. The
suffix is written zero-padded to 4 digits: `NNNN` consists of decimal digits only, denotes
`i`, has at least 4 characters and has more than 4 only without a leading zero; different
suffixes give different paths. `<class>` is AM for an ask configuration, else PM for psk,
else FM for fsk, else UNKNOWN, and `<baud>` is `getBaudRate()`. -/
theorem C15_captureFileName_first_unused_suffix (env : Env) (s : InspectorUI)
    (h : ∃ i, 1 ≤ i ∧ i < 2 ^ 32 ∧ env.access (capturePath s i) = false) :
    (∃ i NNNN, 1 ≤ i ∧ i < 2 ^ 32 ∧
      captureFileName env s =
        some (s.saverUI.recordSavePath ++ "/" ++
          ("channel-capture-" ++ getClassName s ++ "-" ++ toString (getBaudRate s) ++
            "-baud-" ++ NNNN ++ ".raw")) ∧
      env.access (s.saverUI.recordSavePath ++ "/" ++
          ("channel-capture-" ++ getClassName s ++ "-" ++ toString (getBaudRate s) ++
            "-baud-" ++ NNNN ++ ".raw")) = false ∧
      NNNN = pad4 i ∧
      (∀ c ∈ NNNN.data, c.isDigit = true) ∧ decimalValue NNNN = i ∧ 4 ≤ NNNN.length ∧
      (4 < NNNN.length → NNNN.data.head? ≠ some '0') ∧
      ∀ j, 1 ≤ j → j < i → env.access (capturePath s j) = true) ∧
    (∀ j, capturePath s j =
        s.saverUI.recordSavePath ++ "/" ++
          ("channel-capture-" ++ getClassName s ++ "-" ++ toString (getBaudRate s) ++
            "-baud-" ++ pad4 j ++ ".raw") ∧
      (∀ c ∈ (pad4 j).data, c.isDigit = true) ∧ decimalValue (pad4 j) = j ∧
      4 ≤ (pad4 j).length ∧ (4 < (pad4 j).length → (pad4 j).data.head? ≠ some '0')) ∧
    (∀ j k, capturePath s j = capturePath s k → j = k) ∧
    (s.config.hasPrefix "ask" = true → getClassName s = "AM") ∧
    (s.config.hasPrefix "ask" = false → s.config.hasPrefix "psk" = true →
      getClassName s = "PM") ∧
    (s.config.hasPrefix "ask" = false → s.config.hasPrefix "psk" = false →
      s.config.hasPrefix "fsk" = true → getClassName s = "FM") ∧
    (s.config.hasPrefix "ask" = false → s.config.hasPrefix "psk" = false →
      s.config.hasPrefix "fsk" = false → getClassName s = "UNKNOWN") := by
  refine ⟨?_, fun j => ⟨rfl, pad4_spec j⟩, capturePath_injective s, ?_, ?_, ?_, ?_⟩
  · classical
    have hex : ∃ i, 1 ≤ i ∧ i < 2 ^ 32 ∧ env.access (capturePath s i) = false := h
    obtain ⟨m1, m2, m3⟩ := Nat.find_spec hex
    have hmin : ∀ j, 1 ≤ j → j < Nat.find hex → env.access (capturePath s j) = true := by
      intro j hj1 hj2
      have hnot := Nat.find_min hex hj2
      cases hacc : env.access (capturePath s j)
      · exact absurd ⟨hj1, by omega, hacc⟩ hnot
      · rfl
    obtain ⟨p1, p2, p3, p4⟩ := pad4_spec (Nat.find hex)
    refine ⟨Nat.find hex, pad4 (Nat.find hex), m1, m2, ?_, m3, rfl, p1, p2, p3, p4, hmin⟩
    exact captureLoop_finds env s (2 ^ 32) 0 (Nat.find hex) (by omega) m2 (by omega)
      (fun j hj1 hj2 => hmin j (by omega) hj2) m3
  · intro h1
    simp [getClassName, h1]
  · intro h1 h2
    simp [getClassName, h1, h2]
  · intro h1 h2 h3
    simp [getClassName, h1, h2, h3]
  · intro h1 h2 h3
    simp [getClassName, h1, h2, h3]

/-- C15, witness: the sample inspector (an fsk configuration at 9600 baud, saving under
`/tmp`) when the files with suffixes 1 and 2 exist: the name returned carries suffix 0003;
the suffixes 1, 42, 9999 and 12345 are written 0001, 0042, 9999 and 12345. -/
theorem C15_witness :
    (∃ i NNNN, 1 ≤ i ∧ i < 2 ^ 32 ∧
      captureFileName twoFilesEnv (sampleState DecisionMode.MODULUS 9600) =
        some ((sampleState DecisionMode.MODULUS 9600).saverUI.recordSavePath ++ "/" ++
          ("channel-capture-" ++ getClassName (sampleState DecisionMode.MODULUS 9600) ++ "-" ++
            toString (getBaudRate (sampleState DecisionMode.MODULUS 9600)) ++
            "-baud-" ++ NNNN ++ ".raw")) ∧
      twoFilesEnv.access ((sampleState DecisionMode.MODULUS 9600).saverUI.recordSavePath ++
          "/" ++
          ("channel-capture-" ++ getClassName (sampleState DecisionMode.MODULUS 9600) ++ "-" ++
            toString (getBaudRate (sampleState DecisionMode.MODULUS 9600)) ++
            "-baud-" ++ NNNN ++ ".raw")) = false ∧
      NNNN = pad4 i ∧
      (∀ c ∈ NNNN.data, c.isDigit = true) ∧ decimalValue NNNN = i ∧ 4 ≤ NNNN.length ∧
      (4 < NNNN.length → NNNN.data.head? ≠ some '0') ∧
      ∀ j, 1 ≤ j → j < i →
        twoFilesEnv.access (capturePath (sampleState DecisionMode.MODULUS 9600) j) = true) ∧
    captureFileName twoFilesEnv (sampleState DecisionMode.MODULUS 9600) =
      some "/tmp/channel-capture-FM-9600-baud-0003.raw" ∧
    pad4 1 = "0001" ∧ pad4 3 = "0003" ∧ pad4 42 = "0042" ∧ pad4 9999 = "9999" ∧
    pad4 12345 = "12345" ∧
    capturePath (sampleState DecisionMode.MODULUS 9600) 7 =
      "/tmp/channel-capture-FM-9600-baud-0007.raw" :=
  ⟨(C15_captureFileName_first_unused_suffix twoFilesEnv (sampleState DecisionMode.MODULUS 9600)
      ⟨3, by decide, by decide, by decide⟩).1,
   by decide, by decide, by decide, by decide, by decide, by decide, by decide⟩

/-- C16: through any sequence of feeds, `setBps` calls, rate-change notifications, record
and forward toggles, save and net failure handlers, user toggle presses and configuration
edits, the decider's decision mode, minimum and maximum stay what they were at the start
(in particular what the constructor left). -/
theorem C16_decision_mode_immutable (s0 s : InspectorUI) (h : Reachable s0 s) :
    s.decider.mode = s0.decider.mode ∧ s.decider.minimum = s0.decider.minimum ∧
    s.decider.maximum = s0.decider.maximum := by
  induction h with
  | start => exact ⟨rfl, rfl, rfl⟩
  | next env a s t _ hstep ih =>
    obtain ⟨h1, h2, h3, _⟩ := step_sound env a s t hstep
    exact ⟨h1.trans ih.1, h2.trans ih.2.1, h3.trans ih.2.2⟩

/-- C16, witness: the constructed sample inspector after `setBps 2`: the bits per symbol
changed, the mode, minimum and maximum did not. -/
theorem C16_witness :
    (setBps 2 constructedSample).decider.bps = 2 ∧
    constructedSample.decider.bps = 1 ∧
    (setBps 2 constructedSample).decider.mode = constructedSample.decider.mode ∧
    (setBps 2 constructedSample).decider.minimum = constructedSample.decider.minimum ∧
    (setBps 2 constructedSample).decider.maximum = constructedSample.decider.maximum :=
  ⟨rfl, rfl,
   C16_decision_mode_immutable constructedSample (setBps 2 constructedSample)
    (Reachable.next (sampleEnv ⟨10, 0⟩) (Action.setBps 2) constructedSample
      (setBps 2 constructedSample) Reachable.start rfl)⟩

/-- C17: the constructor selects the decision mode from the demodulator family: with the ask
prefix the decider gets MODULUS, minimum 0 and maximum 1 (whatever other prefixes are
present); otherwise with the afc prefix, and otherwise with the fsk prefix, it gets ARGUMENT,
minimum -π and maximum π; with none of the three the decider keeps the settings it was
built with. -/
theorem C17_constructor_selects_decision_mode (config : Config) (attached : Bool)
    (m : InspectorUI) :
    (config.hasPrefix "ask" = true →
      (construct config attached m).decider.mode = DecisionMode.MODULUS ∧
      (construct config attached m).decider.minimum = 0 ∧
      (construct config attached m).decider.maximum = 1) ∧
    (config.hasPrefix "ask" = false → config.hasPrefix "afc" = true →
      (construct config attached m).decider.mode = DecisionMode.ARGUMENT ∧
      (construct config attached m).decider.minimum = -PI ∧
      (construct config attached m).decider.maximum = PI) ∧
    (config.hasPrefix "ask" = false → config.hasPrefix "afc" = false →
      config.hasPrefix "fsk" = true →
      (construct config attached m).decider.mode = DecisionMode.ARGUMENT ∧
      (construct config attached m).decider.minimum = -PI ∧
      (construct config attached m).decider.maximum = PI) ∧
    (config.hasPrefix "ask" = false → config.hasPrefix "afc" = false →
      config.hasPrefix "fsk" = false →
      (construct config attached m).decider.mode = m.decider.mode ∧
      (construct config attached m).decider.minimum = m.decider.minimum ∧
      (construct config attached m).decider.maximum = m.decider.maximum) := by
  obtain ⟨c1, c2, c3, _⟩ := construct_fields config attached m
  rw [c1, c2, c3]
  unfold constructDecider
  refine ⟨?_, ?_, ?_, ?_⟩
  · intro h1
    simp [h1]
  · intro h1 h2
    simp [h1, h2]
  · intro h1 h2 h3
    simp [h1, h2, h3]
  · intro h1 h2 h3
    simp [h1, h2, h3]

/-- C17, witness: the sample configuration has the fsk prefix only. -/
theorem C17_witness :
    constructedSample.decider.mode = DecisionMode.ARGUMENT ∧
    constructedSample.decider.minimum = -PI ∧
    constructedSample.decider.maximum = PI :=
  (C17_constructor_selects_decision_mode (sampleConfig 9600) true
    (sampleState DecisionMode.MODULUS 9600)).2.2.1 (by decide) (by decide) (by decide)

/-- C18: in every state reachable from a freshly constructed inspector (no session and no
raised flag before arming) through feeds, `setBps`, the record and forward toggles, the
rate-change notification, the save and net failure handlers, user toggle presses and
configuration edits, recording true implies `dataSaver` non-null and forwarding true implies
`socketForwarder` non-null, and every feed returns without a call through a null session
pointer. -/
theorem C18_flags_imply_sessions (config : Config) (attached : Bool) (m s : InspectorUI)
    (hm : freshMembers m) (h : Reachable (construct config attached m) s) :
    (s.recording = true → s.dataSaver ≠ none) ∧
    (s.forwarding = true → s.socketForwarder ≠ none) ∧
    ∀ (env : Env) (data : List SUCOMPLEX), ∃ u, feed env s data = some u := by
  have hinv : sessionsPresent s := by
    induction h with
    | start =>
      obtain ⟨_, _, _, c4, c5, _, _⟩ := construct_fields config attached m
      obtain ⟨m1, m2, _, _, _⟩ := hm
      refine ⟨fun hr => ?_, fun hf => ?_⟩
      · rw [c4, m1] at hr
        exact absurd hr (by simp)
      · rw [c5, m2] at hf
        exact absurd hf (by simp)
    | next env a s t _ hstep ih => exact (step_sound env a s t hstep).2.2.2 ih
  refine ⟨?_, ?_, fun env data => feed_returns env s data hinv⟩
  · intro hr hn
    have := hinv.1 hr
    rw [hn] at this
    exact absurd this (by simp)
  · intro hf hn
    have := hinv.2 hf
    rw [hn] at this
    exact absurd this (by simp)

/-- C18, witness: the constructed sample inspector after the forward toggle is pressed and
handled: forwarding is on, the forwarder is installed, and a feed returns. -/
theorem C18_witness :
    forwardArmedSample.forwarding = true ∧
    (forwardArmedSample.forwarding = true → forwardArmedSample.socketForwarder ≠ none) ∧
    ∃ u, feed (sampleEnv ⟨10, 0⟩) forwardArmedSample [1, I] = some u :=
  ⟨rfl,
   (C18_flags_imply_sessions (sampleConfig 9600) true (sampleState DecisionMode.MODULUS 9600)
      forwardArmedSample ⟨rfl, rfl, rfl, rfl, rfl⟩
      (Reachable.next (sampleEnv ⟨10, 0⟩) Action.toggleNetForward _ _
        (Reachable.next (sampleEnv ⟨10, 0⟩) (Action.userForwardToggle true) _ _
          Reachable.start rfl) rfl)).2.1,
   (C18_flags_imply_sessions (sampleConfig 9600) true (sampleState DecisionMode.MODULUS 9600)
      forwardArmedSample ⟨rfl, rfl, rfl, rfl, rfl⟩
      (Reachable.next (sampleEnv ⟨10, 0⟩) Action.toggleNetForward _ _
        (Reachable.next (sampleEnv ⟨10, 0⟩) (Action.userForwardToggle true) _ _
          Reachable.start rfl) rfl)).2.2 (sampleEnv ⟨10, 0⟩) [1, I]⟩

/-- C19: a feed (on a state whose raised flags have their session) returns. Outside MODULUS
mode with recording or forwarding on and a batch of `n` samples, the scratch buffer
afterwards has length `max (previous length) n`, its first `n` elements are the converted
samples, the elements at index `n` and beyond are as before, and each raised flag's session
takes one `write` of exactly those first `n` elements. In MODULUS mode, or with neither flag
on, the buffer is as before. -/
theorem C19_scratch_buffer_reuse (env : Env) (s : InspectorUI) (data : List SUCOMPLEX)
    (hs : sessionsPresent s) :
    ∃ u, feed env s data = some u ∧
      (s.decider.mode ≠ DecisionMode.MODULUS → s.recording = true ∨ s.forwarding = true →
        u.buffer.length = max s.buffer.length data.length ∧
        u.buffer.take data.length = data.map argScalar ∧
        (u.buffer.take data.length).length = data.length ∧
        (∀ j, data.length ≤ j → u.buffer[j]? = s.buffer[j]?) ∧
        u.dataSaver =
          (if s.recording = true then
            s.dataSaver.map (fun d => d.write (u.buffer.take data.length))
           else s.dataSaver) ∧
        u.socketForwarder =
          (if s.forwarding = true then
            s.socketForwarder.map (fun f => f.write (u.buffer.take data.length))
           else s.socketForwarder)) ∧
      (s.decider.mode = DecisionMode.MODULUS ∨
          (s.recording = false ∧ s.forwarding = false) → u.buffer = s.buffer) := by
  obtain ⟨u, hu⟩ := feed_returns env s data hs
  refine ⟨u, hu, ?_, ?_⟩
  · intro hm hfl
    obtain ⟨v, hv, h1, h2, h3⟩ := feed_argument env s data hm hs hfl
    rw [hu] at hv
    cases hv
    rw [scratch_after_fill] at h3
    have htake : u.buffer.take data.length = data.map argScalar := by
      rw [h3, List.take_append_of_le_length (by simp)]
      simp
    refine ⟨?_, htake, by rw [htake]; simp, ?_, by rw [htake]; exact h1,
      by rw [htake]; exact h2⟩
    · rw [h3]
      simp
      omega
    · intro j hj
      rw [h3, List.getElem?_append_right (by simpa using hj)]
      simp [List.getElem?_drop]
      congr 1
      omega
  · intro hc
    rcases hc with hm | ⟨hr, hf⟩
    · obtain ⟨v, hv, _, _, h3⟩ := feed_modulus env s data hm hs
      rw [hu] at hv
      cases hv
      exact h3
    · obtain ⟨f1, f2, _, _, f5, _⟩ := feedStages_frame env s data
      have hidle := feedCapture_idle
        (feedDecider env (feedEstimator env (feedDisplay s data)) data) data
        (f1.trans hr) (f2.trans hf)
      unfold feed at hu
      rw [hidle] at hu
      cases hu
      exact f5

/-- C19, witness: the armed ARGUMENT-mode inspector with three stale elements in its scratch
buffer, fed a batch of two samples. -/
theorem C19_witness :
    ∃ u, feed (sampleEnv ⟨10, 0⟩)
        { armedState DecisionMode.ARGUMENT 9600 with buffer := [7, 8, 9] } [1, I] = some u ∧
      u.buffer.length = 3 ∧
      u.buffer.take 2 = [argScalar 1, argScalar I] ∧
      u.buffer[2]? = some 9 := by
  obtain ⟨u, hu, h1, _⟩ := C19_scratch_buffer_reuse (sampleEnv ⟨10, 0⟩)
    { armedState DecisionMode.ARGUMENT 9600 with buffer := [7, 8, 9] } [1, I]
    ⟨fun _ => rfl, fun _ => rfl⟩
  obtain ⟨k1, k2, _, k4, _, _⟩ := h1 (by decide) (Or.inl rfl)
  exact ⟨u, hu, k1, k2, k4 2 (le_refl 2)⟩

/-- C20 (failing input): recording and forwarding at 9600 with both toggles on, and
`clock.baud` now 0. `onInspectorControlChanged` ends both sessions and clears both flags;
the record toggle follows the recording flag, but the forward toggle still shows on while
forwarding is false. -/
theorem C20_forward_toggle_left_on :
    (armedState DecisionMode.MODULUS 0).forwarding = true ∧
    (armedState DecisionMode.MODULUS 0).netForwarderUI.forwardState = true ∧
    getBaudRate (armedState DecisionMode.MODULUS 0) = 0 ∧
    (armedState DecisionMode.MODULUS 0).recordingRate = 9600 ∧
    (onInspectorControlChanged (sampleEnv ⟨10, 0⟩) (armedState DecisionMode.MODULUS 0)).map
      (fun t => (t.recording, t.saverUI.recordState, t.forwarding,
        t.netForwarderUI.forwardState, t.socketForwarder.isSome)) =
      some (false, false, false, true, false) := by
  refine ⟨rfl, rfl, by decide, rfl, ?_⟩
  rfl

/-- C21 (failing input): the sample inspector with the record toggle pressed arms a file
session on sink handle 1; the toggle is released and `onToggleRecord` disarms it; the queued
deletion then runs. `uninstallDataSaver` closes handle 1 and the writer's destructor closes
handle 1 again, so the handle is closed twice. Destroying the inspector while the session is
still armed closes it once. -/
theorem C21_sink_closed_twice_on_teardown :
    (onToggleRecord (sampleEnv ⟨10, 0⟩) (togglesOnState DecisionMode.MODULUS 9600)).map
      (fun s1 => (s1.sink, s1.dataSaver.map (fun d => d.writer.sink), s1.sinkCloses)) =
      some (some 1, some (some 1), []) ∧
    ((onToggleRecord (sampleEnv ⟨10, 0⟩) (togglesOnState DecisionMode.MODULUS 9600)).bind
      (fun s1 => onToggleRecord (sampleEnv ⟨10, 0⟩) (releaseRecordToggle s1))).map
      (fun s2 => (s2.dataSaver.isSome, s2.sink, s2.sinkCloses, s2.saversToDelete.length,
        (processDeferredDeletes s2).sinkCloses,
        (processDeferredDeletes s2).sinkCloses.count 1)) =
      some (false, none, [1], 1, [1, 1], 2) ∧
    (onToggleRecord (sampleEnv ⟨10, 0⟩) (togglesOnState DecisionMode.MODULUS 9600)).map
      (fun s1 => (destroyInspector s1).sinkCloses) = some [1] := by
  refine ⟨rfl, rfl, rfl⟩

end SigDigger
